import Mathlib

/-!
# BitScript chain parameters

A shallow embedding of `src/kernel/chainparams.cpp`: the genesis constructor
`CreateGenesisBlock`, the five parameter classes (`CMainParams`,
`CTestNetParams`, `CTestNet4Params`, `SigNetParams`, `CRegTestParams`), the
factories, `GetAvailableSnapshotHeights` and `GetNetworkForMagic`.

Conventions.
* A byte is a `Nat` below 256, a byte string a `List Nat`.
* `uint32_t`, `uint16_t`, `uint64_t` values are `Nat`, `int`, `int32_t`,
  `int64_t` and `CAmount` values are `Int`; a serializer reduces modulo `2^w`.
* A `uint256` is its 32 bytes in memory order (`m_data`), least significant
  byte first; the hex text of a literal is that sequence reversed.
* A constructor whose `assert` fails aborts the process: the parameter classes
  are `Option`-valued, `none` standing for the abort.
* `std::optional<T>` is `Option T`.
-/

namespace BitScript

/-! ## Byte helpers -/

/-- Little-endian encoding of `n` on `k` bytes (`ser_writedata16/32/64`); the
value is reduced modulo `256^k`. -/
def le (n : Nat) : Nat → List Nat
  | 0 => []
  | k + 1 => (n % 256) :: le (n / 256) k

/-- Big-endian encoding of `n` on `k` bytes (`WriteBE32`, `WriteBE64`). -/
def be (n : Nat) : Nat → List Nat
  | 0 => []
  | k + 1 => be (n / 256) k ++ [n % 256]

/-! ## SHA-256 and the double hash -/

/-- Modelled from the spec: the round constants of the hash primitive behind
`H256` (crypto/sha256.cpp is not among the sources); FIPS 180-4, section 4.2.2,
written in decimal with the usual hexadecimal form beside each row. -/
def sha256K : List Nat := [
  1116352408, 1899447441, 3049323471, 3921009573,  -- 428a2f98 71374491 b5c0fbcf e9b5dba5
  961987163, 1508970993, 2453635748, 2870763221,  -- 3956c25b 59f111f1 923f82a4 ab1c5ed5
  3624381080, 310598401, 607225278, 1426881987,  -- d807aa98 12835b01 243185be 550c7dc3
  1925078388, 2162078206, 2614888103, 3248222580,  -- 72be5d74 80deb1fe 9bdc06a7 c19bf174
  3835390401, 4022224774, 264347078, 604807628,  -- e49b69c1 efbe4786 0fc19dc6 240ca1cc
  770255983, 1249150122, 1555081692, 1996064986,  -- 2de92c6f 4a7484aa 5cb0a9dc 76f988da
  2554220882, 2821834349, 2952996808, 3210313671,  -- 983e5152 a831c66d b00327c8 bf597fc7
  3336571891, 3584528711, 113926993, 338241895,  -- c6e00bf3 d5a79147 06ca6351 14292967
  666307205, 773529912, 1294757372, 1396182291,  -- 27b70a85 2e1b2138 4d2c6dfc 53380d13
  1695183700, 1986661051, 2177026350, 2456956037,  -- 650a7354 766a0abb 81c2c92e 92722c85
  2730485921, 2820302411, 3259730800, 3345764771,  -- a2bfe8a1 a81a664b c24b8b70 c76c51a3
  3516065817, 3600352804, 4094571909, 275423344,  -- d192e819 d6990624 f40e3585 106aa070
  430227734, 506948616, 659060556, 883997877,  -- 19a4c116 1e376c08 2748774c 34b0bcb5
  958139571, 1322822218, 1537002063, 1747873779,  -- 391c0cb3 4ed8aa4a 5b9cca4f 682e6ff3
  1955562222, 2024104815, 2227730452, 2361852424,  -- 748f82ee 78a5636f 84c87814 8cc70208
  2428436474, 2756734187, 3204031479, 3329325298]  -- 90befffa a4506ceb bef9a3f7 c67178f2

/-- The eight 32-bit working variables of SHA-256. -/
structure Sha256State where
  a : Nat
  b : Nat
  c : Nat
  d : Nat
  e : Nat
  f : Nat
  g : Nat
  h : Nat
deriving DecidableEq, Repr

/-- Modelled from the spec: the initial hash value of SHA-256 (FIPS 180-4,
section 5.3.3). -/
def sha256Init : Sha256State :=
  -- 6a09e667 bb67ae85 3c6ef372 a54ff53a 510e527f 9b05688c 1f83d9ab 5be0cd19
  { a := 1779033703, b := 3144134277, c := 1013904242, d := 2773480762,
    e := 1359893119, f := 2600822924, g := 528734635, h := 1541459225 }

/-- Rotation to the right of a 32-bit word. -/
def rotr (x n : Nat) : Nat := ((x >>> n) ||| (x <<< (32 - n))) % 4294967296

/-- One round of the SHA-256 compression function with constant `k` and
schedule word `w`. -/
def sha256Round (s : Sha256State) (k w : Nat) : Sha256State :=
  let S1 := (rotr s.e 6) ^^^ (rotr s.e 11) ^^^ (rotr s.e 25)
  let ch := (s.e &&& s.f) ^^^ ((4294967295 - s.e) &&& s.g)
  let t1 := (s.h + S1 + ch + k + w) % 4294967296
  let S0 := (rotr s.a 2) ^^^ (rotr s.a 13) ^^^ (rotr s.a 22)
  let maj := (s.a &&& s.b) ^^^ (s.a &&& s.c) ^^^ (s.b &&& s.c)
  let t2 := (S0 + maj) % 4294967296
  ⟨(t1 + t2) % 4294967296, s.a, s.b, s.c, (s.d + t1) % 4294967296, s.e, s.f, s.g⟩

/-- The rounds of one block: one per pair of constant and schedule word. -/
def sha256Rounds : Sha256State → List Nat → List Nat → Sha256State
  | s, k :: ks, w :: ws => sha256Rounds (sha256Round s k w) ks ws
  | s, _, _ => s

/-- The small sigma functions of the message schedule. -/
def sha256Sig0 (x : Nat) : Nat := (rotr x 7) ^^^ (rotr x 18) ^^^ (x >>> 3)

/-- The second small sigma function of the message schedule. -/
def sha256Sig1 (x : Nat) : Nat := (rotr x 17) ^^^ (rotr x 19) ^^^ (x >>> 10)

/-- The message schedule: `n` further words after a window of the 16 latest. -/
def sha256Schedule : Nat → List Nat → List Nat
  | 0, _ => []
  | n + 1, win =>
    let nw := (sha256Sig1 (win.getD 14 0) + win.getD 9 0 + sha256Sig0 (win.getD 1 0)
      + win.getD 0 0) % 4294967296
    nw :: sha256Schedule n (win.tail ++ [nw])

/-- Big-endian 32-bit words of a byte string. -/
def sha256Words : List Nat → List Nat
  | b0 :: b1 :: b2 :: b3 :: r => (((b0 * 256 + b1) * 256 + b2) * 256 + b3) :: sha256Words r
  | _ => []

/-- The compression function on one 64-byte block. -/
def sha256Compress (s : Sha256State) (blk : List Nat) : Sha256State :=
  let w := sha256Words blk
  let t := sha256Rounds s sha256K (w ++ sha256Schedule 48 w)
  ⟨(s.a + t.a) % 4294967296, (s.b + t.b) % 4294967296, (s.c + t.c) % 4294967296,
   (s.d + t.d) % 4294967296, (s.e + t.e) % 4294967296, (s.f + t.f) % 4294967296,
   (s.g + t.g) % 4294967296, (s.h + t.h) % 4294967296⟩

/-- Compression of `n` consecutive 64-byte blocks. -/
def sha256Blocks : Nat → Sha256State → List Nat → Sha256State
  | 0, s, _ => s
  | n + 1, s, bs => sha256Blocks n (sha256Compress s (bs.take 64)) (bs.drop 64)

/-- The padding of SHA-256: a `0x80` byte, zeros up to 56 modulo 64, and the
bit length on 8 bytes. -/
def sha256Pad (m : List Nat) : List Nat :=
  m ++ [128] ++ List.replicate ((119 - m.length % 64) % 64) 0 ++ be (8 * m.length) 8

/-- Modelled from the spec: the hash primitive `CSHA256` behind the double-hash
function `H256` of the spec (crypto/sha256.cpp is not among the sources; the
source names it at the signet magic, "the sha256d of the block script"). -/
def sha256 (m : List Nat) : List Nat :=
  let p := sha256Pad m
  let s := sha256Blocks (p.length / 64) sha256Init p
  be s.a 4 ++ be s.b 4 ++ be s.c 4 ++ be s.d 4 ++ be s.e 4 ++ be s.f 4 ++ be s.g 4 ++ be s.h 4

/-- A 256-bit value: its 32 bytes in memory order. -/
abbrev uint256 := List Nat

/-- Modelled from the spec: the double-hash function `H256(bytes)` producing a
256-bit digest (`HashWriter::GetHash`, hash.h is not among the sources): SHA-256
applied twice. -/
def Hash256 (m : List Nat) : uint256 := sha256 (sha256 m)

/-- The null value `uint256{}`: 32 zero bytes. -/
def uint256_null : uint256 := List.replicate 32 0

/-- The test `IsNull` of a 256-bit value. -/
def uint256_IsNull (h : uint256) : Bool := h.all (fun b => b == 0)

/-! ## Hex literals -/

/-- Value of a hex digit (`HexDigit`), `none` for any other character. -/
def HexDigit (c : Char) : Option Nat :=
  let n := c.toNat
  if 48 ≤ n ∧ n ≤ 57 then some (n - 48)
  else if 97 ≤ n ∧ n ≤ 102 then some (n - 87)
  else if 65 ≤ n ∧ n ≤ 70 then some (n - 55)
  else none

/-- The leading hex digits of a character sequence, as values. -/
def hexDigits : List Char → List Nat
  | [] => []
  | c :: r =>
    match HexDigit c with
    | some d => d :: hexDigits r
    | none => []

/-- Bytes from hex digits given last digit first: the first digit of a pair
is the low nibble. -/
def nibblePairs : List Nat → List Nat
  | lo :: hi :: r => (hi * 16 + lo) :: nibblePairs r
  | [lo] => [lo]
  | [] => []

/-- Removal of an optional leading `0x`. -/
def dropHexMark : List Char → List Char
  | '0' :: 'x' :: r => r
  | '0' :: 'X' :: r => r
  | cs => cs

/-- Modelled from the spec: the hex-decoding utility for 256-bit literals
(uint256.h is not among the sources), used for `uint256("...")`,
`uint256{"..."}` and `uint256S("0x...")`. As `base_blob::SetHex` it skips an
optional `0x`, reads the hex digits from the last one backwards, two per byte,
and fills at most 32 bytes; bytes not reached stay zero. This is the only
reading under which the literals `uint256("")` and the 65-digit literal of
`CRegTestParams` are values at all. -/
def uint256S (s : String) : uint256 :=
  let bytes := (nibblePairs (hexDigits (dropHexMark s.toList)).reverse).take 32
  bytes ++ List.replicate (32 - bytes.length) 0

/-- Decoding of a hex string to bytes, pair by pair; `none` on a character
that is not a hex digit or on an odd number of digits. -/
def TryParseHex : List Char → Option (List Nat)
  | [] => some []
  | [_] => none
  | c1 :: c2 :: r =>
    match HexDigit c1, HexDigit c2, TryParseHex r with
    | some h, some l, some t => some ((h * 16 + l) :: t)
    | _, _, _ => none

/-- Modelled from the spec: the hex-decoding utility for byte constants
(`ParseHex` and the `_hex` literal suffix, util/strencodings.h is not among the
sources); an ill-formed string gives the empty byte string. -/
def ParseHex (s : String) : List Nat := (TryParseHex s.toList).getD []

/-! ## Serialization -/

/-- Modelled from the spec: the variable-length size marker of the wire
serialization (`WriteCompactSize`, serialize.h is not among the sources). -/
def WriteCompactSize (n : Nat) : List Nat :=
  if n < 253 then [n]
  else if n ≤ 0xffff then 253 :: le n 2
  else if n ≤ 0xffffffff then 254 :: le n 4
  else 255 :: le n 8

/-- Modelled from the spec: serialization of a byte vector (`Serialize` for
`std::vector<unsigned char>` and for `CScript`): its compact size, then its bytes. -/
def SerializeBytes (v : List Nat) : List Nat := WriteCompactSize v.length ++ v

/-! ## Scripts -/

/-- A script: its bytes. -/
abbrev CScript := List Nat

/-- Opcode `OP_0`. -/
def OP_0 : Nat := 0x00
/-- Opcode `OP_PUSHDATA1`. -/
def OP_PUSHDATA1 : Nat := 0x4c
/-- Opcode `OP_PUSHDATA2`. -/
def OP_PUSHDATA2 : Nat := 0x4d
/-- Opcode `OP_PUSHDATA4`. -/
def OP_PUSHDATA4 : Nat := 0x4e
/-- Opcode `OP_1`. -/
def OP_1 : Nat := 0x51
/-- Opcode `OP_CHECKSIG`. -/
def OP_CHECKSIG : Nat := 0xac

/-- Modelled from the spec: the script builder's push-data token
(`CScript::operator<<` on a byte vector, script/script.h is not among the
sources): a length marker chosen by size, then the bytes. -/
def CScript_pushData (s : CScript) (b : List Nat) : CScript :=
  let n := b.length
  let mark :=
    if n < OP_PUSHDATA1 then [n]
    else if n ≤ 0xff then [OP_PUSHDATA1, n]
    else if n ≤ 0xffff then OP_PUSHDATA2 :: le n 2
    else OP_PUSHDATA4 :: le n 4
  s ++ mark ++ b

/-- The script builder's opcode token (`CScript::operator<<` on an opcode). -/
def CScript_pushOp (s : CScript) (op : Nat) : CScript := s ++ [op]

/-- Bytes of a non-zero magnitude, least significant first, at most `fuel`. -/
def magnitudeBytes : Nat → Nat → List Nat
  | 0, _ => []
  | fuel + 1, v => if v = 0 then [] else (v % 256) :: magnitudeBytes fuel (v / 256)

/-- Modelled from the spec: `CScriptNum::serialize`: the minimal little-endian
sign-magnitude encoding of a script number; zero is the empty string. -/
def CScriptNum_serialize (value : Int) : List Nat :=
  if value = 0 then []
  else
    let result := magnitudeBytes 8 value.natAbs
    let last := result.getLastD 0
    if last &&& 0x80 ≠ 0 then result ++ [if value < 0 then 0x80 else 0]
    else if value < 0 then result.dropLast ++ [last ||| 0x80]
    else result

/-- Modelled from the spec: the script builder's integer token
(`CScript::operator<<` on an `int64_t`, `push_int64`): a one-byte opcode for
-1 and 1..16, `OP_0` for 0, otherwise a push of the number's encoding. -/
def CScript_pushInt64 (s : CScript) (n : Int) : CScript :=
  if n = -1 ∨ (1 ≤ n ∧ n ≤ 16) then s ++ [(n + (OP_1 - 1 : Nat)).toNat]
  else if n = 0 then s ++ [OP_0]
  else CScript_pushData s (CScriptNum_serialize n)

/-- The script builder's `CScriptNum` token: always a push of the number's
encoding (`*this << b.getvch()`). -/
def CScript_pushScriptNum (s : CScript) (n : Int) : CScript :=
  CScript_pushData s (CScriptNum_serialize n)

/-! ## Transactions and blocks -/

/-- An outpoint: transaction hash and output index. -/
structure COutPoint where
  hash : uint256
  n : Nat
deriving DecidableEq, Repr

/-- The index of a null outpoint (`COutPoint::NULL_INDEX`). -/
def NULL_INDEX : Nat := 0xffffffff

/-- The default-constructed, null outpoint. -/
def COutPoint_null : COutPoint := ⟨uint256_null, NULL_INDEX⟩

/-- The test `COutPoint::IsNull`. -/
def COutPoint_IsNull (o : COutPoint) : Bool := uint256_IsNull o.hash && o.n == NULL_INDEX

/-- The final sequence number (`CTxIn::SEQUENCE_FINAL`). -/
def SEQUENCE_FINAL : Nat := 0xffffffff

/-- A transaction input. -/
structure CTxIn where
  prevout : COutPoint
  scriptSig : CScript
  nSequence : Nat
deriving DecidableEq, Repr

/-- The default-constructed input placed by `vin.resize(1)`. -/
def CTxIn_default : CTxIn := ⟨COutPoint_null, [], SEQUENCE_FINAL⟩

/-- A transaction output. -/
structure CTxOut where
  nValue : Int
  scriptPubKey : CScript
deriving DecidableEq, Repr

/-- The default-constructed output placed by `vout.resize(1)` (`SetNull`). -/
def CTxOut_default : CTxOut := ⟨-1, []⟩

/-- A transaction under construction. -/
structure CMutableTransaction where
  version : Nat
  vin : List CTxIn
  vout : List CTxOut
  nLockTime : Nat
deriving DecidableEq, Repr

/-- The default-constructed transaction: current version 2, nothing else. -/
def CMutableTransaction_default : CMutableTransaction := ⟨2, [], [], 0⟩

/-- A finished transaction. -/
structure CTransaction where
  version : Nat
  vin : List CTxIn
  vout : List CTxOut
  nLockTime : Nat
deriving DecidableEq, Repr

/-- Conversion of a built transaction to a shared immutable one. -/
def MakeTransactionRef (tx : CMutableTransaction) : CTransaction :=
  ⟨tx.version, tx.vin, tx.vout, tx.nLockTime⟩

/-- Serialization of an input. -/
def SerializeTxIn (i : CTxIn) : List Nat :=
  i.prevout.hash ++ le i.prevout.n 4 ++ SerializeBytes i.scriptSig ++ le i.nSequence 4

/-- Serialization of an output; the amount is a 64-bit two's complement value. -/
def SerializeTxOut (o : CTxOut) : List Nat :=
  le (o.nValue % 18446744073709551616).toNat 8 ++ SerializeBytes o.scriptPubKey

/-- Modelled from the spec: the witness-free serialization of a transaction
(primitives/transaction.h is not among the sources): version, inputs, outputs,
lock time. -/
def SerializeTransaction (tx : CTransaction) : List Nat :=
  le tx.version 4
    ++ WriteCompactSize tx.vin.length ++ (tx.vin.map SerializeTxIn).flatten
    ++ WriteCompactSize tx.vout.length ++ (tx.vout.map SerializeTxOut).flatten
    ++ le tx.nLockTime 4

/-- Modelled from the spec: the identity hash of a transaction
(`CTransaction::GetHash`): the double hash of its witness-free serialization. -/
def CTransaction_GetHash (tx : CTransaction) : uint256 := Hash256 (SerializeTransaction tx)

/-- A block: the header fields and the transactions. -/
structure CBlock where
  nVersion : Int
  hashPrevBlock : uint256
  hashMerkleRoot : uint256
  nTime : Nat
  nBits : Nat
  nNonce : Nat
  vtx : List CTransaction
deriving DecidableEq, Repr

/-- The default-constructed block (`SetNull`). -/
def CBlock_default : CBlock := ⟨0, uint256_null, uint256_null, 0, 0, 0, []⟩

/-- Serialization of the 80-byte block header. -/
def SerializeHeader (b : CBlock) : List Nat :=
  le (b.nVersion % 4294967296).toNat 4 ++ b.hashPrevBlock ++ b.hashMerkleRoot
    ++ le b.nTime 4 ++ le b.nBits 4 ++ le b.nNonce 4

/-- Modelled from the spec: the identity hash of a block
(`CBlockHeader::GetHash`, primitives/block.cpp is not among the sources): the
double hash of the serialized header. -/
def CBlock_GetHash (b : CBlock) : uint256 := Hash256 (SerializeHeader b)

/-- One level of the Merkle tree: pairs hashed together, an odd last element
paired with itself. -/
def merkleLevel : List uint256 → List uint256
  | a :: b :: r => Hash256 (a ++ b) :: merkleLevel r
  | [a] => [Hash256 (a ++ a)]
  | [] => []

/-- The loop of `ComputeMerkleRoot`, at most `fuel` levels. -/
def merkleLoop : Nat → List uint256 → uint256
  | _, [] => uint256_null
  | _, [h] => h
  | 0, h :: _ => h
  | fuel + 1, hs => merkleLoop fuel (merkleLevel hs)

/-- Modelled from the spec: the Merkle-root function over a list of digests
(`ComputeMerkleRoot`, consensus/merkle.cpp is not among the sources): levels
are halved while more than one hash is left; no hash gives the null value. -/
def ComputeMerkleRoot (hashes : List uint256) : uint256 := merkleLoop hashes.length hashes

/-- Modelled from the spec: `BlockMerkleRoot`: the Merkle root over the
identity hashes of the block's transactions. -/
def BlockMerkleRoot (block : CBlock) : uint256 :=
  ComputeMerkleRoot (block.vtx.map CTransaction_GetHash)

/-- The number of base units in a coin (`COIN`, consensus/amount.h). -/
def COIN : Int := 100000000

/-- The genesis constructor; `pszTimestamp` is the content of the C string,
the `strlen` bytes before its terminator. -/
def CreateGenesisBlock (pszTimestamp : List Nat) (genesisOutputScript : CScript)
    (nTime nNonce nBits : Nat) (nVersion : Int) (genesisReward : Int) : CBlock :=
  let txNew : CMutableTransaction := CMutableTransaction_default
  let txNew := { txNew with version := 1 }
  let txNew := { txNew with vin := [CTxIn_default] }
  let txNew := { txNew with vout := [CTxOut_default] }
  let txNew := { txNew with vin := txNew.vin.modifyHead (fun i => { i with
    scriptSig := CScript_pushData (CScript_pushScriptNum (CScript_pushInt64 [] 486604799) 4)
      pszTimestamp }) }
  let txNew := { txNew with vout := txNew.vout.modifyHead (fun o => { o with
    nValue := genesisReward }) }
  let txNew := { txNew with vout := txNew.vout.modifyHead (fun o => { o with
    scriptPubKey := genesisOutputScript }) }
  let genesis : CBlock := CBlock_default
  let genesis := { genesis with nTime := nTime }
  let genesis := { genesis with nBits := nBits }
  let genesis := { genesis with nNonce := nNonce }
  let genesis := { genesis with nVersion := nVersion }
  let genesis := { genesis with vtx := genesis.vtx ++ [MakeTransactionRef txNew] }
  let genesis := { genesis with hashPrevBlock := uint256_null }
  let genesis := { genesis with hashMerkleRoot := BlockMerkleRoot genesis }
  genesis

/-- The timestamp message shared by all networks. -/
def pszTimestamp : List Nat :=
  "BitScript - Blockchain Storage - UK 01/01/2025".toList.map Char.toNat

/-- The genesis constructor with the default message and output script. -/
def CreateGenesisBlockDefault (nTime nNonce nBits : Nat) (nVersion : Int)
    (genesisReward : Int) : CBlock :=
  let genesisOutputScript : CScript := CScript_pushOp (CScript_pushData []
    (ParseHex "0470ca1d8977c6943640139e6d5b68d56a7850a98467b92d310fc2fb93abf0866b9250ac509c78712c62f8d987d4b8d9ad6951bd746ad384ab10d4fec852d03ddd"))
    OP_CHECKSIG
  CreateGenesisBlock pszTimestamp genesisOutputScript nTime nNonce nBits nVersion genesisReward


/-! ## Consensus parameters -/

/-- The network type tag (util/chaintype.h). -/
inductive ChainType where
  | MAIN
  | TESTNET
  | SIGNET
  | REGTEST
  | TESTNET4
deriving DecidableEq, Repr

/-- The legacy, height-only deployments (`Consensus::BuriedDeployment`). -/
inductive BuriedDeployment where
  | DEPLOYMENT_HEIGHTINCB
  | DEPLOYMENT_CLTV
  | DEPLOYMENT_DERSIG
  | DEPLOYMENT_CSV
  | DEPLOYMENT_SEGWIT
deriving DecidableEq, Repr

/-- The version-bits deployments (`Consensus::DeploymentPos`), the slots of
`vDeployments`. -/
inductive DeploymentPos where
  | DEPLOYMENT_TESTDUMMY
  | DEPLOYMENT_TAPROOT
deriving DecidableEq, Repr

/-- The sentinel `BIP9Deployment::NO_TIMEOUT`: the largest `int64_t`. -/
def NO_TIMEOUT : Int := 9223372036854775807
/-- The sentinel `BIP9Deployment::ALWAYS_ACTIVE`. -/
def ALWAYS_ACTIVE : Int := -1
/-- The sentinel `BIP9Deployment::NEVER_ACTIVE`. -/
def NEVER_ACTIVE : Int := -2

/-- One version-bits deployment (`Consensus::BIP9Deployment`) with its member
initializers. -/
structure BIP9Deployment where
  bit : Int := 28
  nStartTime : Int := NEVER_ACTIVE
  nTimeout : Int := NEVER_ACTIVE
  min_activation_height : Int := 0
deriving DecidableEq, Repr

/-- The array `vDeployments[MAX_VERSION_BITS_DEPLOYMENTS]`: one slot for each
`DeploymentPos`. -/
structure VDeployments where
  testdummy : BIP9Deployment := {}
  taproot : BIP9Deployment := {}
deriving DecidableEq, Repr

/-- Reading of `vDeployments[pos]`. -/
def VDeployments.get (v : VDeployments) : DeploymentPos → BIP9Deployment
  | .DEPLOYMENT_TESTDUMMY => v.testdummy
  | .DEPLOYMENT_TAPROOT => v.taproot

/-- Update in place of `vDeployments[pos]`. -/
def VDeployments.modify (v : VDeployments) (pos : DeploymentPos)
    (f : BIP9Deployment → BIP9Deployment) : VDeployments :=
  match pos with
  | .DEPLOYMENT_TESTDUMMY => { v with testdummy := f v.testdummy }
  | .DEPLOYMENT_TAPROOT => { v with taproot := f v.taproot }

/-- Script verification flag `SCRIPT_VERIFY_NONE`. -/
def SCRIPT_VERIFY_NONE : Nat := 0
/-- Script verification flag `SCRIPT_VERIFY_P2SH`. -/
def SCRIPT_VERIFY_P2SH : Nat := 1
/-- Script verification flag `SCRIPT_VERIFY_WITNESS`. -/
def SCRIPT_VERIFY_WITNESS : Nat := 2048

/-- The consensus rule set (`Consensus::Params`). `enforce_BIP94` is `none`
while no constructor statement has assigned the member. -/
structure Params where
  hashGenesisBlock : uint256 := uint256_null
  nSubsidyHalvingInterval : Int
  script_flag_exceptions : List (uint256 × Nat) := []
  BIP34Height : Int
  BIP34Hash : uint256
  BIP65Height : Int
  BIP66Height : Int
  CSVHeight : Int
  SegwitHeight : Int
  MinBIP9WarningHeight : Int
  nRuleChangeActivationThreshold : Nat
  nMinerConfirmationWindow : Nat
  vDeployments : VDeployments
  powLimit : uint256
  fPowAllowMinDifficultyBlocks : Bool
  enforce_BIP94 : Option Bool := none
  fPowNoRetargeting : Bool
  nPowTargetSpacing : Int
  nPowTargetTimespan : Int
  nMinimumChainWork : uint256
  defaultAssumeValid : uint256
  signet_blocks : Bool
  signet_challenge : List Nat
deriving DecidableEq, Repr

/-- The height at which a legacy deployment activates
(`Consensus::Params::DeploymentHeight`). -/
def Params.DeploymentHeight (c : Params) : BuriedDeployment → Int
  | .DEPLOYMENT_HEIGHTINCB => c.BIP34Height
  | .DEPLOYMENT_CLTV => c.BIP65Height
  | .DEPLOYMENT_DERSIG => c.BIP66Height
  | .DEPLOYMENT_CSV => c.CSVHeight
  | .DEPLOYMENT_SEGWIT => c.SegwitHeight

/-! ## Chain parameters -/

/-- The fixed seed tables of chainparamsseeds.h, by name; the tables
themselves are not among the sources. -/
inductive SeedTable where
  | empty
  | chainparams_seed_main
  | chainparams_seed_test
  | chainparams_seed_testnet4
deriving DecidableEq, Repr

/-- The address prefixes `base58Prefixes[...]`, one per `Base58Type`. -/
structure Base58Prefixes where
  PUBKEY_ADDRESS : List Nat
  SCRIPT_ADDRESS : List Nat
  SECRET_KEY : List Nat
  EXT_PUBLIC_KEY : List Nat
  EXT_SECRET_KEY : List Nat
deriving DecidableEq, Repr

/-- An assume-UTXO snapshot descriptor (`AssumeutxoData`). Its member
`hash_serialized` is an `AssumeutxoHash`, which has no default constructor, so
a descriptor cannot be initialized from empty braces: every member is given. -/
structure AssumeutxoData where
  height : Int
  hash_serialized : uint256
  m_chain_tx_count : Nat
  blockhash : uint256
deriving DecidableEq, Repr

/-- Historical transaction statistics (`ChainTxData`); the rate `dTxRate`, a
floating-point number, is left out. -/
structure ChainTxData where
  nTime : Int
  tx_count : Int
deriving DecidableEq, Repr

/-- The parameters of one network (`CChainParams`). -/
structure CChainParams where
  consensus : Params
  pchMessageStart : List Nat
  nDefaultPort : Nat
  nPruneAfterHeight : Nat
  m_assumed_blockchain_size : Nat
  m_assumed_chain_state_size : Nat
  vSeeds : List String := []
  vFixedSeeds : SeedTable
  base58Prefixes : Base58Prefixes
  bech32_hrp : String
  m_chain_type : ChainType
  genesis : CBlock
  fDefaultConsistencyChecks : Bool
  m_is_mockable_chain : Bool
  checkpointData : List (Int × uint256) := []
  m_assumeutxo_data : List AssumeutxoData
  chainTxData : ChainTxData
deriving DecidableEq, Repr

/-- The accessor `MessageStart()`. -/
def CChainParams.MessageStart (p : CChainParams) : List Nat := p.pchMessageStart

/-- The caller-supplied options of the signet constructor. -/
structure SigNetOptions where
  challenge : Option (List Nat) := none
  seeds : Option (List String) := none
deriving DecidableEq, Repr

/-- A version-bits override (`VersionBitsParameters`). -/
structure VersionBitsParameters where
  start_time : Int
  timeout : Int
  min_activation_height : Int
deriving DecidableEq, Repr

/-- The caller-supplied options of the regtest constructor. The two tables are
`std::unordered_map`s: each is given as the sequence of entries that the
constructor's loop visits, in iteration order. A map holds one entry per key,
so the options the constructor can receive are those with
`RegTestOptions.distinctKeys`; the loops themselves do not rely on it. -/
structure RegTestOptions where
  version_bits_parameters : List (DeploymentPos × VersionBitsParameters) := []
  activation_heights : List (BuriedDeployment × Int) := []
  fastprune : Bool := false
  enforce_bip94 : Bool := false
deriving DecidableEq, Repr

/-- The invariant of the two `std::unordered_map` tables: no key occurs in two
entries. -/
def RegTestOptions.distinctKeys (opts : RegTestOptions) : Prop :=
  (opts.activation_heights.map Prod.fst).Nodup
    ∧ (opts.version_bits_parameters.map Prod.fst).Nodup

/-- The invariant of the tables can be checked. -/
instance RegTestOptions.decidableDistinctKeys (opts : RegTestOptions) :
    Decidable opts.distinctKeys :=
  inferInstanceAs (Decidable (_ ∧ _))

/-! ### Main -/

/-- The genesis block of `CMainParams`. -/
def CMainParams_genesis : CBlock :=
  CreateGenesisBlockDefault 1735689606 73204 0x1e0ffff0 1 (5000000 * COIN)

/-- The members as `CMainParams()` leaves them when it runs to its end. -/
def CMainParams_members : CChainParams :=
  { m_chain_type := ChainType.MAIN
    consensus :=
      { signet_blocks := false
        signet_challenge := []
        nSubsidyHalvingInterval := 5000
        script_flag_exceptions :=
          [(uint256S "00000177633cc307cd7f8630cf89dea7bea821a426ef28022423cbbe518aa546",
              SCRIPT_VERIFY_NONE),
           (uint256S "000000028c03020ddf3d4772c1bdb98f161b06a0eb879fa1d4665bcc62dcb0fe",
              SCRIPT_VERIFY_P2SH ||| SCRIPT_VERIFY_WITNESS)]
        BIP34Height := 227931
        BIP34Hash := uint256S "0000086bf866c6c7054b748b9fc269c28c2d4654f720e7768b1e140b287debde"
        BIP65Height := 388
        BIP66Height := 363
        CSVHeight := 419
        SegwitHeight := 481
        MinBIP9WarningHeight := 483
        powLimit := uint256S "00000fffffffffffffffffffffffffffffffffffffffffffffffffffffffffff"
        nPowTargetTimespan := 144 * 60
        nPowTargetSpacing := 60
        fPowAllowMinDifficultyBlocks := false
        fPowNoRetargeting := false
        nRuleChangeActivationThreshold := 90
        nMinerConfirmationWindow := 100
        vDeployments :=
          { testdummy :=
              { bit := 1, nStartTime := 1737429115, nTimeout := 1737429115 + 3600,
                min_activation_height := 50 }
            taproot :=
              { bit := 2, nStartTime := 1737409058, nTimeout := 1737409058 + 18000,
                min_activation_height := 1000 } }
        nMinimumChainWork :=
          uint256S "00000000000000000000000000000000000000000000000000001b1f9ed6f1c6"
        defaultAssumeValid :=
          uint256S "00000001eba2d16d93dd5638d8d914bea08f44340cf1ead81c3b3671392e3188"
        hashGenesisBlock := CBlock_GetHash CMainParams_genesis }
    pchMessageStart := [0xf8, 0xbc, 0xb3, 0xd7]
    nDefaultPort := 7333
    nPruneAfterHeight := 100000
    m_assumed_blockchain_size := 0
    m_assumed_chain_state_size := 0
    genesis := CMainParams_genesis
    base58Prefixes :=
      { PUBKEY_ADDRESS := [25], SCRIPT_ADDRESS := [15], SECRET_KEY := [128],
        EXT_PUBLIC_KEY := [0x04, 0x88, 0xB2, 0x1E], EXT_SECRET_KEY := [0x04, 0x88, 0xAD, 0xE4] }
    bech32_hrp := "bs"
    vFixedSeeds := SeedTable.chainparams_seed_main
    fDefaultConsistencyChecks := false
    m_is_mockable_chain := false
    checkpointData :=
      [(0, uint256S "000000722d67deca36a08defdba9de43ffd698198bf1a9876b690475e14eb0b5"),
       (10000, uint256S "00000005daf15f9f3be63b7d2da8b06878c6f242544b0290b823225f179be6d0"),
       (37820, uint256S "0000000388ea37d1328b6ceaa268a414bdc6ae532cd3435ba0448b21a02f6bde"),
       (50892, uint256S "00000001eba2d16d93dd5638d8d914bea08f44340cf1ead81c3b3671392e3188")]
    m_assumeutxo_data :=
      [{ height := 37817
         hash_serialized :=
           uint256S "f5bfbfe09dc9d04e248cd9c72819533d022f250c9a4add3afa7428f39190205d"
         m_chain_tx_count := 114629
         blockhash :=
           uint256S "00000004d5055e3f69a083c997b78f8a1b148979cfca7d07c30813aa243ec443" }]
    chainTxData := { nTime := 1740654297, tx_count := 127836 } }

/-- The class `CMainParams`: the constructor aborts (`none`) when one of its two
assertions on the genesis block fails. -/
def CMainParams : Option CChainParams :=
  let genesis := CMainParams_genesis
  let hashGenesisBlock := CBlock_GetHash genesis
  if hashGenesisBlock
      = uint256S "000000722d67deca36a08defdba9de43ffd698198bf1a9876b690475e14eb0b5"
    ∧ genesis.hashMerkleRoot
      = uint256S "6b871c79b17729663ef8c6da282cdf411481cf22dd92f0721e88c4ce76f2d6ae"
  then some CMainParams_members else none

/-! ### Testnet (v3) -/

/-- The genesis block of `CTestNetParams`. -/
def CTestNetParams_genesis : CBlock :=
  CreateGenesisBlockDefault 1735689606 73204 0x1e0ffff0 1 (5000000 * COIN)

/-- The members as `CTestNetParams()` leaves them when it runs to its end. -/
def CTestNetParams_members : CChainParams :=
  { m_chain_type := ChainType.TESTNET
    consensus :=
      { signet_blocks := false
        signet_challenge := []
        nSubsidyHalvingInterval := 5000
        script_flag_exceptions := [(uint256S "", SCRIPT_VERIFY_NONE)]
        BIP34Height := 227
        BIP34Hash := uint256S ""
        BIP65Height := 388
        BIP66Height := 363
        CSVHeight := 419
        SegwitHeight := 481
        MinBIP9WarningHeight := 483
        powLimit := uint256S "00000000ffffffffffffffffffffffffffffffffffffffffffffffffffffffff"
        nPowTargetTimespan := 144 * 60
        nPowTargetSpacing := 60
        fPowAllowMinDifficultyBlocks := true
        fPowNoRetargeting := false
        nRuleChangeActivationThreshold := 90
        nMinerConfirmationWindow := 100
        vDeployments :=
          { testdummy :=
              { bit := 2, nStartTime := NEVER_ACTIVE, nTimeout := NO_TIMEOUT,
                min_activation_height := 0 }
            taproot :=
              { bit := 2, nStartTime := 1737409058, nTimeout := 1737409058 + 18000,
                min_activation_height := 1000 } }
        nMinimumChainWork := uint256S "0x"
        defaultAssumeValid := uint256S "0x"
        hashGenesisBlock := CBlock_GetHash CTestNetParams_genesis }
    pchMessageStart := [0x0b, 0x11, 0x09, 0x07]
    nDefaultPort := 17333
    nPruneAfterHeight := 1000
    m_assumed_blockchain_size := 93
    m_assumed_chain_state_size := 19
    genesis := CTestNetParams_genesis
    vSeeds := []
    base58Prefixes :=
      { PUBKEY_ADDRESS := [111], SCRIPT_ADDRESS := [196], SECRET_KEY := [239],
        EXT_PUBLIC_KEY := [0x04, 0x35, 0x87, 0xCF], EXT_SECRET_KEY := [0x04, 0x35, 0x83, 0x94] }
    bech32_hrp := "btb"
    vFixedSeeds := SeedTable.chainparams_seed_test
    fDefaultConsistencyChecks := false
    m_is_mockable_chain := false
    checkpointData :=
      [(546, uint256S "000000002a936ca763904c3c35fce2f3556c559c0214345d31b1bcebf76acb70")]
    m_assumeutxo_data := []
    chainTxData := { nTime := 1723613341, tx_count := 187917082 } }

/-- The class `CTestNetParams`: the constructor aborts (`none`) when one of its
two assertions on the genesis block fails. -/
def CTestNetParams : Option CChainParams :=
  let genesis := CTestNetParams_genesis
  let hashGenesisBlock := CBlock_GetHash genesis
  if hashGenesisBlock
      = uint256S "0x000000722d67deca36a08defdba9de43ffd698198bf1a9876b690475e14eb0b5"
    ∧ genesis.hashMerkleRoot
      = uint256S "0x6b871c79b17729663ef8c6da282cdf411481cf22dd92f0721e88c4ce76f2d6ae"
  then some CTestNetParams_members else none

/-! ### Testnet (v4) -/

/-- The genesis block of `CTestNet4Params`, built from its own message and
output script. -/
def CTestNet4Params_genesis : CBlock :=
  let testnet4_genesis_msg : List Nat :=
    "BitScript - Blockchain Storage - UK 01/01/2025".toList.map Char.toNat
  let testnet4_genesis_script : CScript := CScript_pushOp (CScript_pushData []
    (ParseHex "000000000000000000000000000000000000000000000000000000000000000000"))
    OP_CHECKSIG
  CreateGenesisBlock testnet4_genesis_msg testnet4_genesis_script 1735689727 167876 0x1e0ffff0 1
    (5000000 * COIN)

/-- The members as `CTestNet4Params()` would leave them if it ran to its end.
The braces `{ {}, }` place one value-initialized entry, height 0 and the null
hash, in the checkpoint map. The braces `{ {} }` of the snapshot list leave it
empty: a descriptor cannot be initialized from `{}`, so the inner braces are
read as an empty list of descriptors. -/
def CTestNet4Params_members : CChainParams :=
  { m_chain_type := ChainType.TESTNET4
    consensus :=
      { signet_blocks := false
        signet_challenge := []
        nSubsidyHalvingInterval := 5000
        BIP34Height := 1
        BIP34Hash := uint256_null
        BIP65Height := 1
        BIP66Height := 1
        CSVHeight := 1
        SegwitHeight := 1
        MinBIP9WarningHeight := 0
        powLimit := uint256S "00000000ffffffffffffffffffffffffffffffffffffffffffffffffffffffff"
        nPowTargetTimespan := 144 * 60
        nPowTargetSpacing := 60
        fPowAllowMinDifficultyBlocks := true
        enforce_BIP94 := some true
        fPowNoRetargeting := false
        nRuleChangeActivationThreshold := 90
        nMinerConfirmationWindow := 100
        vDeployments :=
          { testdummy :=
              { bit := 1, nStartTime := NEVER_ACTIVE, nTimeout := NO_TIMEOUT,
                min_activation_height := 0 }
            taproot :=
              { bit := 2, nStartTime := ALWAYS_ACTIVE, nTimeout := NO_TIMEOUT,
                min_activation_height := 0 } }
        nMinimumChainWork := uint256_null
        defaultAssumeValid := uint256_null
        hashGenesisBlock := CBlock_GetHash CTestNet4Params_genesis }
    pchMessageStart := [0x1c, 0x16, 0x3f, 0x28]
    nDefaultPort := 47333
    nPruneAfterHeight := 1000
    m_assumed_blockchain_size := 1
    m_assumed_chain_state_size := 0
    genesis := CTestNet4Params_genesis
    vSeeds := []
    base58Prefixes :=
      { PUBKEY_ADDRESS := [111], SCRIPT_ADDRESS := [196], SECRET_KEY := [239],
        EXT_PUBLIC_KEY := [0x04, 0x35, 0x87, 0xCF], EXT_SECRET_KEY := [0x04, 0x35, 0x83, 0x94] }
    bech32_hrp := "btb"
    vFixedSeeds := SeedTable.chainparams_seed_testnet4
    fDefaultConsistencyChecks := false
    m_is_mockable_chain := false
    checkpointData := [(0, uint256_null)]
    m_assumeutxo_data := []
    chainTxData := { nTime := 1735689727, tx_count := 0 } }

/-- The class `CTestNet4Params`: the constructor aborts (`none`) when one of its
two assertions on the genesis block fails. -/
def CTestNet4Params : Option CChainParams :=
  let genesis := CTestNet4Params_genesis
  let hashGenesisBlock := CBlock_GetHash genesis
  if hashGenesisBlock
      = uint256S "6b871c79b17729663ef8c6da282cdf411481cf22dd92f0721e88c4ce76f2d6ae"
    ∧ genesis.hashMerkleRoot
      = uint256S "7aa0a7ae1e223414cb807e40cd57e667b718e42aaf9306db9102fe28912b7b4e"
  then some CTestNet4Params_members else none

/-! ### Signet -/

/-- The genesis block of `SigNetParams`; it does not depend on the options. -/
def SigNetParams_genesis : CBlock :=
  CreateGenesisBlockDefault 1735689688 290527 0x1e0377ae 1 (5000000 * COIN)

/-- The default challenge script of `SigNetParams`, used when the options
supply none. -/
def SigNetParams_defaultChallenge : List Nat :=
  ParseHex "5121903a57b3aae64bf6aad80e0cd44a336cb8d4235a30f3421b731b8719f2227b3c772ab16810e2269eb097a452d349bc0b094577d059cf160c5b36e0ae40220856211baa828a20d00d2e2d9ffc637a720e7462bc82c9f272d361972cb39542f9c38b4bbfceb7919c80cef91c8940ac27f7fc6430c7c49a4b58dadec061c5ed5c221e52ae"

/-- The local `bin` of `SigNetParams`: the challenge bytes in force. -/
def SigNetParams_bin (options : SigNetOptions) : List Nat :=
  match options.challenge with
  | none => SigNetParams_defaultChallenge
  | some challenge => challenge

/-- The message start of `SigNetParams`: the first 4 bytes of the hash of what
`HashWriter` receives from `h << consensus.signet_challenge`, the serialized
byte vector. -/
def SigNetParams_messageStart (signet_challenge : List Nat) : List Nat :=
  let hash := Hash256 (SerializeBytes signet_challenge)
  hash.take 4

/-- The members as `SigNetParams(options)` leaves them when it runs to its end
(the log line of the custom-challenge branch is not modelled). -/
def SigNetParams_members (options : SigNetOptions) : CChainParams :=
  let bin := SigNetParams_bin options
  let signet_challenge := bin
  { vSeeds :=
      match options.seeds with
      | some seeds => seeds
      | none => []
    m_chain_type := ChainType.SIGNET
    consensus :=
      { nMinimumChainWork :=
          match options.challenge with
          | none => uint256S ""
          | some _ => uint256_null
        defaultAssumeValid :=
          match options.challenge with
          | none => uint256S ""
          | some _ => uint256_null
        signet_blocks := true
        signet_challenge := signet_challenge
        nSubsidyHalvingInterval := 210000
        BIP34Height := 1
        BIP34Hash := uint256_null
        BIP65Height := 1
        BIP66Height := 1
        CSVHeight := 1
        SegwitHeight := 1
        nPowTargetTimespan := 2 * 60 * 60
        nPowTargetSpacing := 60
        fPowAllowMinDifficultyBlocks := false
        enforce_BIP94 := some false
        fPowNoRetargeting := false
        nRuleChangeActivationThreshold := 108
        nMinerConfirmationWindow := 144
        MinBIP9WarningHeight := 0
        powLimit := uint256S "00000377ae000000000000000000000000000000000000000000000000000000"
        vDeployments :=
          { testdummy :=
              { bit := 28, nStartTime := NEVER_ACTIVE, nTimeout := NO_TIMEOUT,
                min_activation_height := 0 }
            taproot :=
              { bit := 2, nStartTime := ALWAYS_ACTIVE, nTimeout := NO_TIMEOUT,
                min_activation_height := 0 } }
        hashGenesisBlock := CBlock_GetHash SigNetParams_genesis }
    m_assumed_blockchain_size :=
      match options.challenge with
      | none => 5
      | some _ => 0
    m_assumed_chain_state_size :=
      match options.challenge with
      | none => 1
      | some _ => 0
    chainTxData :=
      match options.challenge with
      | none => { nTime := 1735689688, tx_count := 0 }
      | some _ => { nTime := 0, tx_count := 0 }
    pchMessageStart := SigNetParams_messageStart signet_challenge
    nDefaultPort := 38333
    nPruneAfterHeight := 1000
    genesis := SigNetParams_genesis
    vFixedSeeds := SeedTable.empty
    m_assumeutxo_data := []
    base58Prefixes :=
      { PUBKEY_ADDRESS := [111], SCRIPT_ADDRESS := [196], SECRET_KEY := [239],
        EXT_PUBLIC_KEY := [0x04, 0x35, 0x87, 0xCF], EXT_SECRET_KEY := [0x04, 0x35, 0x83, 0x94] }
    bech32_hrp := "tbs"
    fDefaultConsistencyChecks := false
    m_is_mockable_chain := false }

/-- The class `SigNetParams`: the constructor aborts (`none`) when one of its
two assertions on the genesis block fails. -/
def SigNetParams (options : SigNetOptions) : Option CChainParams :=
  let genesis := SigNetParams_genesis
  let hashGenesisBlock := CBlock_GetHash genesis
  if hashGenesisBlock
      = uint256S "0000024b2e9e97e9a6e41ff2457993352318d12018f36cdc5585eeb4bb670532"
    ∧ genesis.hashMerkleRoot
      = uint256S "6b871c79b17729663ef8c6da282cdf411481cf22dd92f0721e88c4ce76f2d6ae"
  then some (SigNetParams_members options) else none

/-! ### Regtest -/

/-- The genesis block of `CRegTestParams`; it does not depend on the options. -/
def CRegTestParams_genesis : CBlock :=
  CreateGenesisBlockDefault 1735689702 3 0x207fffff 1 (5000000 * COIN)

/-- The consensus members of `CRegTestParams` before the two override loops. -/
def CRegTestParams_consensusDefaults (opts : RegTestOptions) : Params :=
  { signet_blocks := false
    signet_challenge := []
    nSubsidyHalvingInterval := 150
    BIP34Height := 1
    BIP34Hash := uint256_null
    BIP65Height := 1
    BIP66Height := 1
    CSVHeight := 1
    SegwitHeight := 0
    MinBIP9WarningHeight := 0
    powLimit := uint256S "7fffffffffffffffffffffffffffffffffffffffffffffffffffffffffffffff"
    nPowTargetTimespan := 144 * 60
    nPowTargetSpacing := 60
    fPowAllowMinDifficultyBlocks := true
    enforce_BIP94 := some opts.enforce_bip94
    fPowNoRetargeting := true
    nRuleChangeActivationThreshold := 108
    nMinerConfirmationWindow := 144
    vDeployments :=
      { testdummy :=
          { bit := 1, nStartTime := 0, nTimeout := NO_TIMEOUT, min_activation_height := 0 }
        taproot :=
          { bit := 2, nStartTime := ALWAYS_ACTIVE, nTimeout := NO_TIMEOUT,
            min_activation_height := 0 } }
    nMinimumChainWork := uint256_null
    defaultAssumeValid := uint256_null }

/-- The body of the first override loop of `CRegTestParams`: the `switch` on
the deployment id. -/
def CRegTestParams_activationHeightStep (consensus : Params) (entry : BuriedDeployment × Int) :
    Params :=
  match entry with
  | (BuriedDeployment.DEPLOYMENT_SEGWIT, height) => { consensus with SegwitHeight := height }
  | (BuriedDeployment.DEPLOYMENT_HEIGHTINCB, height) => { consensus with BIP34Height := height }
  | (BuriedDeployment.DEPLOYMENT_DERSIG, height) => { consensus with BIP66Height := height }
  | (BuriedDeployment.DEPLOYMENT_CLTV, height) => { consensus with BIP65Height := height }
  | (BuriedDeployment.DEPLOYMENT_CSV, height) => { consensus with CSVHeight := height }

/-- The body of the second override loop of `CRegTestParams`: three member
assignments on `vDeployments[deployment_pos]`. -/
def CRegTestParams_versionBitsStep (consensus : Params)
    (entry : DeploymentPos × VersionBitsParameters) : Params :=
  let deployment_pos := entry.1
  let version_bits_params := entry.2
  let vDeployments := consensus.vDeployments
  let vDeployments := vDeployments.modify deployment_pos
    (fun d => { d with nStartTime := version_bits_params.start_time })
  let vDeployments := vDeployments.modify deployment_pos
    (fun d => { d with nTimeout := version_bits_params.timeout })
  let vDeployments := vDeployments.modify deployment_pos
    (fun d => { d with min_activation_height := version_bits_params.min_activation_height })
  let consensus := { consensus with vDeployments := vDeployments }
  consensus

/-- The consensus members of `CRegTestParams` after the defaults, the two
override loops in source order, and the genesis hash. -/
def CRegTestParams_consensus (opts : RegTestOptions) : Params :=
  let consensus := CRegTestParams_consensusDefaults opts
  let consensus := opts.activation_heights.foldl CRegTestParams_activationHeightStep consensus
  let consensus := opts.version_bits_parameters.foldl CRegTestParams_versionBitsStep consensus
  { consensus with hashGenesisBlock := CBlock_GetHash CRegTestParams_genesis }

/-- The members as `CRegTestParams(opts)` leaves them when it runs to its end. -/
def CRegTestParams_members (opts : RegTestOptions) : CChainParams :=
  { m_chain_type := ChainType.REGTEST
    consensus := CRegTestParams_consensus opts
    pchMessageStart := [0xfa, 0xbf, 0xb5, 0xda]
    nDefaultPort := 17444
    nPruneAfterHeight := if opts.fastprune then 100 else 1000
    m_assumed_blockchain_size := 0
    m_assumed_chain_state_size := 0
    genesis := CRegTestParams_genesis
    vFixedSeeds := SeedTable.empty
    vSeeds := []
    fDefaultConsistencyChecks := true
    m_is_mockable_chain := true
    checkpointData :=
      [(0, uint256S "361a9b4dbb07235de1548fab66057824f15415c407361f2a97a5e23f708fa154")]
    m_assumeutxo_data := []
    chainTxData := { nTime := 0, tx_count := 0 }
    base58Prefixes :=
      { PUBKEY_ADDRESS := [111], SCRIPT_ADDRESS := [196], SECRET_KEY := [239],
        EXT_PUBLIC_KEY := [0x04, 0x35, 0x87, 0xCF], EXT_SECRET_KEY := [0x04, 0x35, 0x83, 0x94] }
    bech32_hrp := "bsrt" }

/-- The class `CRegTestParams`: the constructor aborts (`none`) when one of its
two assertions on the genesis block fails. -/
def CRegTestParams (opts : RegTestOptions) : Option CChainParams :=
  let genesis := CRegTestParams_genesis
  let hashGenesisBlock := CBlock_GetHash genesis
  if hashGenesisBlock
      = uint256S "361a9b4dbb07235de1548fab66057824f15415c407361f2a97a5e23f708fa154"
    ∧ genesis.hashMerkleRoot
      = uint256S "06b871c79b17729663ef8c6da282cdf411481cf22dd92f0721e88c4ce76f2d6ae"
  then some (CRegTestParams_members opts) else none

/-! ### Factories and lookups -/

/-- The factory `CChainParams::SigNet`. -/
def CChainParams.SigNet (options : SigNetOptions) : Option CChainParams := SigNetParams options

/-- The factory `CChainParams::RegTest`. -/
def CChainParams.RegTest (options : RegTestOptions) : Option CChainParams :=
  CRegTestParams options

/-- The factory `CChainParams::Main`. -/
def CChainParams.Main : Option CChainParams := CMainParams

/-- The factory `CChainParams::TestNet`. -/
def CChainParams.TestNet : Option CChainParams := CTestNetParams

/-- The factory `CChainParams::TestNet4`. -/
def CChainParams.TestNet4 : Option CChainParams := CTestNet4Params

/-- The network identity resolver. The five parameter sets are built first, in
source order; the outer `Option` is `none` when one of these constructions
aborts, the inner one is the returned `std::optional<ChainType>`. -/
def GetNetworkForMagic (message : List Nat) : Option (Option ChainType) :=
  match CChainParams.Main with
  | none => none
  | some mainnet =>
  match CChainParams.TestNet with
  | none => none
  | some testnet =>
  match CChainParams.TestNet4 with
  | none => none
  | some testnet4 =>
  match CChainParams.RegTest {} with
  | none => none
  | some regtest =>
  match CChainParams.SigNet {} with
  | none => none
  | some signet =>
    let mainnet_msg := mainnet.MessageStart
    let testnet_msg := testnet.MessageStart
    let testnet4_msg := testnet4.MessageStart
    let regtest_msg := regtest.MessageStart
    let signet_msg := signet.MessageStart
    if message = mainnet_msg then some (some ChainType.MAIN)
    else if message = testnet_msg then some (some ChainType.TESTNET)
    else if message = testnet4_msg then some (some ChainType.TESTNET4)
    else if message = regtest_msg then some (some ChainType.REGTEST)
    else if message = signet_msg then some (some ChainType.SIGNET)
    else some none

/-- Modelled from the spec: the reading of a 256-bit value as an unsigned
integer (`UintToArith256`, arith_uint256.h is not among the sources): the bytes
in memory order are the base-256 digits, least significant first. -/
def UintToArith256 (h : uint256) : Nat := h.foldr (fun b acc => b + 256 * acc) 0

/-- Modelled from the spec: the decoding of a compact difficulty value
(`arith_uint256::SetCompact`, arith_uint256.cpp is not among the sources): the
top byte is the size in bytes, the low 23 bits the mantissa, and the target is
the mantissa shifted to that size, kept on 256 bits. -/
def arith_uint256_SetCompact (nCompact : Nat) : Nat :=
  let nSize := nCompact >>> 24
  let nWord := nCompact &&& 0x007fffff
  if nSize ≤ 3 then nWord >>> (8 * (3 - nSize))
  else (nWord <<< (8 * (nSize - 3))) % 2 ^ 256

/-! ## Properties -/

/-! ### The genesis assertions, evaluated -/

set_option maxRecDepth 1000000 in
/-- The genesis block of Main hashes to the literal pinned in `CMainParams`. -/
theorem CMainParams_genesis_hash :
    CBlock_GetHash CMainParams_genesis
      = uint256S "000000722d67deca36a08defdba9de43ffd698198bf1a9876b690475e14eb0b5" := by
  decide!

set_option maxRecDepth 1000000 in
/-- The Merkle root of the genesis block of Main is the literal pinned in
`CMainParams`. -/
theorem CMainParams_genesis_merkle :
    CMainParams_genesis.hashMerkleRoot
      = uint256S "6b871c79b17729663ef8c6da282cdf411481cf22dd92f0721e88c4ce76f2d6ae" := by
  decide!

set_option maxRecDepth 1000000 in
/-- The genesis block of Testnet hashes to the literal pinned in
`CTestNetParams`, written there with a leading `0x`. -/
theorem CTestNetParams_genesis_hash :
    CBlock_GetHash CTestNetParams_genesis
      = uint256S "0x000000722d67deca36a08defdba9de43ffd698198bf1a9876b690475e14eb0b5" := by
  decide!

set_option maxRecDepth 1000000 in
/-- The Merkle root of the genesis block of Testnet is the literal pinned in
`CTestNetParams`. -/
theorem CTestNetParams_genesis_merkle :
    CTestNetParams_genesis.hashMerkleRoot
      = uint256S "0x6b871c79b17729663ef8c6da282cdf411481cf22dd92f0721e88c4ce76f2d6ae" := by
  decide!

set_option maxRecDepth 1000000 in
/-- The genesis block of Signet hashes to the literal pinned in `SigNetParams`. -/
theorem SigNetParams_genesis_hash :
    CBlock_GetHash SigNetParams_genesis
      = uint256S "0000024b2e9e97e9a6e41ff2457993352318d12018f36cdc5585eeb4bb670532" := by
  decide!

set_option maxRecDepth 1000000 in
/-- The Merkle root of the genesis block of Signet is the literal pinned in
`SigNetParams`. -/
theorem SigNetParams_genesis_merkle :
    SigNetParams_genesis.hashMerkleRoot
      = uint256S "6b871c79b17729663ef8c6da282cdf411481cf22dd92f0721e88c4ce76f2d6ae" := by
  decide!

set_option maxRecDepth 1000000 in
/-- The genesis block of Regtest hashes to the literal pinned in
`CRegTestParams`. -/
theorem CRegTestParams_genesis_hash :
    CBlock_GetHash CRegTestParams_genesis
      = uint256S "361a9b4dbb07235de1548fab66057824f15415c407361f2a97a5e23f708fa154" := by
  decide!

set_option maxRecDepth 1000000 in
/-- The Merkle root of the genesis block of Regtest is the value of the
65-digit literal pinned in `CRegTestParams`, whose leading digit lies beyond
the 64 digits the hex reader keeps. -/
theorem CRegTestParams_genesis_merkle :
    CRegTestParams_genesis.hashMerkleRoot
      = uint256S "06b871c79b17729663ef8c6da282cdf411481cf22dd92f0721e88c4ce76f2d6ae" := by
  decide!

set_option maxRecDepth 1000000 in
/-- The identity hash that the genesis block of Testnet4 really has. -/
theorem CTestNet4Params_genesis_hash :
    CBlock_GetHash CTestNet4Params_genesis
      = uint256S "228d2a315e7e50b4f68950f3653a01d098c240f02a293353bb05b8aafcfbfff5" := by
  decide!

set_option maxRecDepth 1000000 in
/-- The Merkle root that the genesis block of Testnet4 really has. -/
theorem CTestNet4Params_genesis_merkle :
    CTestNet4Params_genesis.hashMerkleRoot
      = uint256S "c880292c273764dd51d989dacb81c768de2404ac16aa9bb663f5e320edfa66f2" := by
  decide!

set_option maxRecDepth 1000000 in
/-- The identity hash of the genesis block of Testnet4 is not the literal its
constructor asserts. -/
theorem CTestNet4Params_genesis_hash_ne :
    CBlock_GetHash CTestNet4Params_genesis
      ≠ uint256S "6b871c79b17729663ef8c6da282cdf411481cf22dd92f0721e88c4ce76f2d6ae" := by
  rw [CTestNet4Params_genesis_hash]
  decide!

set_option maxRecDepth 1000000 in
/-- The Merkle root of the genesis block of Testnet4 is not the literal its
constructor asserts. -/
theorem CTestNet4Params_genesis_merkle_ne :
    CTestNet4Params_genesis.hashMerkleRoot
      ≠ uint256S "7aa0a7ae1e223414cb807e40cd57e667b718e42aaf9306db9102fe28912b7b4e" := by
  rw [CTestNet4Params_genesis_merkle]
  decide!

/-- The constructor of Main runs to its end. -/
theorem CMainParams_eq : CMainParams = some CMainParams_members := by
  simp only [CMainParams, CMainParams_genesis_hash, CMainParams_genesis_merkle, and_self, if_true]

/-- The constructor of Testnet runs to its end. -/
theorem CTestNetParams_eq : CTestNetParams = some CTestNetParams_members := by
  simp only [CTestNetParams, CTestNetParams_genesis_hash, CTestNetParams_genesis_merkle,
    and_self, if_true]

/-- The constructor of Testnet4 aborts at its first assertion. -/
theorem CTestNet4Params_eq_none : CTestNet4Params = none := by
  have h := CTestNet4Params_genesis_hash_ne
  simp only [CTestNet4Params, h, false_and, if_false]

/-- The constructor of Signet runs to its end, whatever the options. -/
theorem SigNetParams_eq (options : SigNetOptions) :
    SigNetParams options = some (SigNetParams_members options) := by
  simp only [SigNetParams, SigNetParams_genesis_hash, SigNetParams_genesis_merkle, and_self,
    if_true]

/-- The constructor of Regtest runs to its end, whatever the options. -/
theorem CRegTestParams_eq (opts : RegTestOptions) :
    CRegTestParams opts = some (CRegTestParams_members opts) := by
  simp only [CRegTestParams, CRegTestParams_genesis_hash, CRegTestParams_genesis_merkle,
    and_self, if_true]

/-- The resolver aborts on every input: it builds Testnet4 before it compares. -/
theorem GetNetworkForMagic_eq_none (message : List Nat) : GetNetworkForMagic message = none := by
  unfold GetNetworkForMagic
  rw [show CChainParams.TestNet4 = none from CTestNet4Params_eq_none]
  cases CChainParams.Main with
  | none => rfl
  | some mainnet =>
    cases CChainParams.TestNet with
    | none => rfl
    | some testnet => rfl

/-! ### Hash and Merkle facts -/

/-- A big-endian encoding on `k` bytes has `k` bytes. -/
theorem be_length (k : Nat) : ∀ n : Nat, (be n k).length = k := by
  induction k with
  | zero => intro n; rfl
  | succ k ih => intro n; simp [be, ih]

/-- A SHA-256 digest has 32 bytes. -/
theorem sha256_length (m : List Nat) : (sha256 m).length = 32 := by
  simp [sha256, be_length]

/-- A double-hash digest has 32 bytes. -/
theorem Hash256_length (m : List Nat) : (Hash256 m).length = 32 := by
  simp [Hash256, sha256_length]

/-- The single-element Merkle law: the root of one hash is that hash. -/
theorem ComputeMerkleRoot_singleton (h : uint256) : ComputeMerkleRoot [h] = h := rfl

/-! ### The override loops of Regtest -/

/-- The first loop's body sets the height of the entry's own deployment. -/
theorem activationHeightStep_self (c : Params) (dep : BuriedDeployment) (height : Int) :
    (CRegTestParams_activationHeightStep c (dep, height)).DeploymentHeight dep = height := by
  cases dep <;> rfl

/-- The first loop's body leaves the height of every other deployment. -/
theorem activationHeightStep_other (c : Params) (entry : BuriedDeployment × Int)
    (dep : BuriedDeployment) (hne : entry.1 ≠ dep) :
    (CRegTestParams_activationHeightStep c entry).DeploymentHeight dep
      = c.DeploymentHeight dep := by
  obtain ⟨k, height⟩ := entry
  cases k <;> cases dep <;> first | rfl | exact absurd rfl hne

/-- The first loop leaves the version-bits table untouched. -/
theorem activationHeightStep_vDeployments (c : Params) (entry : BuriedDeployment × Int) :
    (CRegTestParams_activationHeightStep c entry).vDeployments = c.vDeployments := by
  obtain ⟨k, height⟩ := entry
  cases k <;> rfl

/-- The whole first loop leaves the version-bits table untouched. -/
theorem activationHeights_vDeployments (l : List (BuriedDeployment × Int)) :
    ∀ c : Params, (l.foldl CRegTestParams_activationHeightStep c).vDeployments
      = c.vDeployments := by
  induction l with
  | nil => intro c; rfl
  | cons e t ih =>
    intro c
    rw [List.foldl_cons, ih, activationHeightStep_vDeployments]

/-- A deployment that the height table does not name keeps its height through
the first loop. -/
theorem activationHeights_absent (l : List (BuriedDeployment × Int)) (dep : BuriedDeployment) :
    ∀ c : Params, dep ∉ l.map Prod.fst →
      (l.foldl CRegTestParams_activationHeightStep c).DeploymentHeight dep
        = c.DeploymentHeight dep := by
  induction l with
  | nil => intro c _; rfl
  | cons e t ih =>
    intro c hnot
    rw [List.map_cons, List.mem_cons, not_or] at hnot
    rw [List.foldl_cons, ih _ hnot.2, activationHeightStep_other c e dep (Ne.symm hnot.1)]

/-- A deployment that a height table with distinct keys names gets the height
of its entry. -/
theorem activationHeights_present (l : List (BuriedDeployment × Int)) (dep : BuriedDeployment)
    (height : Int) :
    ∀ c : Params, (l.map Prod.fst).Nodup → (dep, height) ∈ l →
      (l.foldl CRegTestParams_activationHeightStep c).DeploymentHeight dep = height := by
  induction l with
  | nil => intro c _ hm; exact absurd hm (List.not_mem_nil _)
  | cons e t ih =>
    intro c hnd hm
    rw [List.map_cons, List.nodup_cons] at hnd
    rw [List.foldl_cons]
    rcases List.mem_cons.1 hm with heq | hmem
    · subst heq
      rw [activationHeights_absent t dep _ hnd.1, activationHeightStep_self]
    · exact ih _ hnd.2 hmem

/-- The second loop's body leaves the legacy heights untouched. -/
theorem versionBitsStep_height (c : Params) (entry : DeploymentPos × VersionBitsParameters)
    (dep : BuriedDeployment) :
    (CRegTestParams_versionBitsStep c entry).DeploymentHeight dep = c.DeploymentHeight dep := by
  cases dep <;> rfl

/-- The whole second loop leaves the legacy heights untouched. -/
theorem versionBits_height (l : List (DeploymentPos × VersionBitsParameters))
    (dep : BuriedDeployment) :
    ∀ c : Params, (l.foldl CRegTestParams_versionBitsStep c).DeploymentHeight dep
      = c.DeploymentHeight dep := by
  induction l with
  | nil => intro c; rfl
  | cons e t ih =>
    intro c
    rw [List.foldl_cons, ih, versionBitsStep_height]

/-- The second loop's body replaces three members of the entry's own slot and
keeps its bit. -/
theorem versionBitsStep_self (c : Params) (pos : DeploymentPos) (vb : VersionBitsParameters) :
    (CRegTestParams_versionBitsStep c (pos, vb)).vDeployments.get pos
      = { bit := (c.vDeployments.get pos).bit
          nStartTime := vb.start_time
          nTimeout := vb.timeout
          min_activation_height := vb.min_activation_height } := by
  cases pos <;> rfl

/-- The second loop's body leaves every other slot. -/
theorem versionBitsStep_other (c : Params) (entry : DeploymentPos × VersionBitsParameters)
    (pos : DeploymentPos) (hne : entry.1 ≠ pos) :
    (CRegTestParams_versionBitsStep c entry).vDeployments.get pos = c.vDeployments.get pos := by
  obtain ⟨k, vb⟩ := entry
  cases k <;> cases pos <;> first | rfl | exact absurd rfl hne

/-- The second loop's body never writes a bit position. -/
theorem versionBitsStep_bit (c : Params) (entry : DeploymentPos × VersionBitsParameters)
    (pos : DeploymentPos) :
    ((CRegTestParams_versionBitsStep c entry).vDeployments.get pos).bit
      = (c.vDeployments.get pos).bit := by
  obtain ⟨k, vb⟩ := entry
  cases k <;> cases pos <;> rfl

/-- The whole second loop never writes a bit position. -/
theorem versionBits_bit (l : List (DeploymentPos × VersionBitsParameters)) (pos : DeploymentPos) :
    ∀ c : Params, ((l.foldl CRegTestParams_versionBitsStep c).vDeployments.get pos).bit
      = (c.vDeployments.get pos).bit := by
  induction l with
  | nil => intro c; rfl
  | cons e t ih =>
    intro c
    rw [List.foldl_cons, ih, versionBitsStep_bit]

/-- A slot that the version-bits table does not name is unchanged by the
second loop. -/
theorem versionBits_absent (l : List (DeploymentPos × VersionBitsParameters))
    (pos : DeploymentPos) :
    ∀ c : Params, pos ∉ l.map Prod.fst →
      (l.foldl CRegTestParams_versionBitsStep c).vDeployments.get pos
        = c.vDeployments.get pos := by
  induction l with
  | nil => intro c _; rfl
  | cons e t ih =>
    intro c hnot
    rw [List.map_cons, List.mem_cons, not_or] at hnot
    rw [List.foldl_cons, ih _ hnot.2, versionBitsStep_other c e pos (Ne.symm hnot.1)]

/-- A slot that a version-bits table with distinct keys names holds the three
values of its entry and its old bit. -/
theorem versionBits_present (l : List (DeploymentPos × VersionBitsParameters))
    (pos : DeploymentPos) (vb : VersionBitsParameters) :
    ∀ c : Params, (l.map Prod.fst).Nodup → (pos, vb) ∈ l →
      (l.foldl CRegTestParams_versionBitsStep c).vDeployments.get pos
        = { bit := (c.vDeployments.get pos).bit
            nStartTime := vb.start_time
            nTimeout := vb.timeout
            min_activation_height := vb.min_activation_height } := by
  induction l with
  | nil => intro c _ hm; exact absurd hm (List.not_mem_nil _)
  | cons e t ih =>
    intro c hnd hm
    rw [List.map_cons, List.nodup_cons] at hnd
    rw [List.foldl_cons]
    rcases List.mem_cons.1 hm with heq | hmem
    · subst heq
      rw [versionBits_absent t pos _ hnd.1, versionBitsStep_self]
    · rw [ih _ hnd.2 hmem, versionBitsStep_bit]

/-- The legacy heights of the Regtest consensus are those left by the first
loop. -/
theorem CRegTestParams_consensus_height (opts : RegTestOptions) (dep : BuriedDeployment) :
    (CRegTestParams_consensus opts).DeploymentHeight dep
      = (opts.activation_heights.foldl CRegTestParams_activationHeightStep
          (CRegTestParams_consensusDefaults opts)).DeploymentHeight dep := by
  have h : (CRegTestParams_consensus opts).DeploymentHeight dep
      = (opts.version_bits_parameters.foldl CRegTestParams_versionBitsStep
          (opts.activation_heights.foldl CRegTestParams_activationHeightStep
            (CRegTestParams_consensusDefaults opts))).DeploymentHeight dep := by
    cases dep <;> rfl
  rw [h, versionBits_height]

/-- The version-bits table of the Regtest consensus is the one left by the
second loop run on the defaults. -/
theorem CRegTestParams_consensus_vDeployments (opts : RegTestOptions) (pos : DeploymentPos) :
    (CRegTestParams_consensus opts).vDeployments.get pos
      = ((opts.version_bits_parameters.foldl CRegTestParams_versionBitsStep
          (opts.activation_heights.foldl CRegTestParams_activationHeightStep
            (CRegTestParams_consensusDefaults opts))).vDeployments.get pos) := rfl

/-- Two runs of the first loop's body on entries for different deployments
commute. -/
theorem activationHeightStep_comm (c : Params) (e1 e2 : BuriedDeployment × Int)
    (hne : e1.1 ≠ e2.1) :
    CRegTestParams_activationHeightStep (CRegTestParams_activationHeightStep c e1) e2
      = CRegTestParams_activationHeightStep (CRegTestParams_activationHeightStep c e2) e1 := by
  obtain ⟨k1, h1⟩ := e1
  obtain ⟨k2, h2⟩ := e2
  cases k1 <;> cases k2 <;> first | rfl | exact absurd rfl hne

/-- Two runs of the second loop's body on entries for different slots commute. -/
theorem versionBitsStep_comm (c : Params) (e1 e2 : DeploymentPos × VersionBitsParameters)
    (hne : e1.1 ≠ e2.1) :
    CRegTestParams_versionBitsStep (CRegTestParams_versionBitsStep c e1) e2
      = CRegTestParams_versionBitsStep (CRegTestParams_versionBitsStep c e2) e1 := by
  obtain ⟨k1, v1⟩ := e1
  obtain ⟨k2, v2⟩ := e2
  cases k1 <;> cases k2 <;> first | rfl | exact absurd rfl hne

/-- The first loop gives the same result on two orders of a table with
pairwise distinct keys. -/
theorem activationHeights_perm (l l' : List (BuriedDeployment × Int)) (hp : l.Perm l')
    (hnd : (l.map Prod.fst).Nodup) (c : Params) :
    l.foldl CRegTestParams_activationHeightStep c
      = l'.foldl CRegTestParams_activationHeightStep c := by
  refine List.Perm.foldl_eq' hp ?_ c
  intro x hx y hy z
  by_cases hxy : x.1 = y.1
  · rw [List.inj_on_of_nodup_map hnd hx hy hxy]
  · exact activationHeightStep_comm z x y hxy

/-- The second loop gives the same result on two orders of a table with
pairwise distinct keys. -/
theorem versionBits_perm (l l' : List (DeploymentPos × VersionBitsParameters)) (hp : l.Perm l')
    (hnd : (l.map Prod.fst).Nodup) (c : Params) :
    l.foldl CRegTestParams_versionBitsStep c = l'.foldl CRegTestParams_versionBitsStep c := by
  refine List.Perm.foldl_eq' hp ?_ c
  intro x hx y hy z
  by_cases hxy : x.1 = y.1
  · rw [List.inj_on_of_nodup_map hnd hx hy hxy]
  · exact versionBitsStep_comm z x y hxy

/-- A function of the loop state that no step changes has, after the loop,
the value it had before. -/
theorem foldl_frame {α β γ : Type} (step : β → α → β) (f : β → γ)
    (h : ∀ c e, f (step c e) = f c) (l : List α) : ∀ c : β, f (l.foldl step c) = f c := by
  induction l with
  | nil => intro c; rfl
  | cons e t ih => intro c; rw [List.foldl_cons, ih, h]

/-- The two override loops of Regtest write legacy heights and version-bits
slots only: the proof-of-work members, the flags and the activation threshold
and window keep their defaults. -/
theorem CRegTestParams_consensus_fixed (opts : RegTestOptions) :
    (CRegTestParams_consensus opts).powLimit
        = uint256S "7fffffffffffffffffffffffffffffffffffffffffffffffffffffffffffffff"
    ∧ (CRegTestParams_consensus opts).fPowNoRetargeting = true
    ∧ (CRegTestParams_consensus opts).fPowAllowMinDifficultyBlocks = true
    ∧ (CRegTestParams_consensus opts).enforce_BIP94 = some opts.enforce_bip94
    ∧ (CRegTestParams_consensus opts).nRuleChangeActivationThreshold = 108
    ∧ (CRegTestParams_consensus opts).nMinerConfirmationWindow = 144 := by
  have h2 := foldl_frame CRegTestParams_versionBitsStep
    (fun c : Params => (c.powLimit, c.fPowNoRetargeting, c.fPowAllowMinDifficultyBlocks,
      c.enforce_BIP94, c.nRuleChangeActivationThreshold, c.nMinerConfirmationWindow))
    (fun _ _ => rfl) opts.version_bits_parameters
    (opts.activation_heights.foldl CRegTestParams_activationHeightStep
      (CRegTestParams_consensusDefaults opts))
  have h1 := foldl_frame CRegTestParams_activationHeightStep
    (fun c : Params => (c.powLimit, c.fPowNoRetargeting, c.fPowAllowMinDifficultyBlocks,
      c.enforce_BIP94, c.nRuleChangeActivationThreshold, c.nMinerConfirmationWindow))
    (fun c e => by obtain ⟨k, height⟩ := e; cases k <;> rfl) opts.activation_heights
    (CRegTestParams_consensusDefaults opts)
  have h := h2.trans h1
  simp only [Prod.mk.injEq] at h
  obtain ⟨a, b, c, d, e, f⟩ := h
  exact ⟨a, b, c, d, e, f⟩

/-- The first loop keeps the legacy heights non-negative when every height it
is given is non-negative. -/
theorem activationHeights_nonneg (l : List (BuriedDeployment × Int))
    (hl : ∀ e ∈ l, 0 ≤ e.2) :
    ∀ c : Params, (∀ dep, 0 ≤ c.DeploymentHeight dep) →
      ∀ dep, 0 ≤ (l.foldl CRegTestParams_activationHeightStep c).DeploymentHeight dep := by
  induction l with
  | nil => intro c hc; exact hc
  | cons e t ih =>
    intro c hc
    rw [List.foldl_cons]
    refine ih (fun x hx => hl x (List.mem_cons_of_mem _ hx)) _ ?_
    intro dep
    by_cases hd : e.1 = dep
    · obtain ⟨k, height⟩ := e
      subst hd
      rw [activationHeightStep_self]
      exact hl _ (List.mem_cons_self _ _)
    · rw [activationHeightStep_other c e dep hd]
      exact hc dep

/-- The second loop keeps every finite timeout above its start time when
every entry it is given does. -/
theorem versionBits_timeouts (l : List (DeploymentPos × VersionBitsParameters))
    (hl : ∀ e ∈ l, e.2.timeout ≠ NO_TIMEOUT → e.2.start_time < e.2.timeout) :
    ∀ c : Params,
      (∀ pos, (c.vDeployments.get pos).nTimeout ≠ NO_TIMEOUT →
        (c.vDeployments.get pos).nStartTime < (c.vDeployments.get pos).nTimeout) →
      ∀ pos,
        ((l.foldl CRegTestParams_versionBitsStep c).vDeployments.get pos).nTimeout ≠ NO_TIMEOUT →
        ((l.foldl CRegTestParams_versionBitsStep c).vDeployments.get pos).nStartTime
          < ((l.foldl CRegTestParams_versionBitsStep c).vDeployments.get pos).nTimeout := by
  induction l with
  | nil => intro c hc; exact hc
  | cons e t ih =>
    intro c hc
    rw [List.foldl_cons]
    refine ih (fun x hx => hl x (List.mem_cons_of_mem _ hx)) _ ?_
    intro pos
    by_cases hd : e.1 = pos
    · obtain ⟨k, vb⟩ := e
      subst hd
      rw [versionBitsStep_self]
      exact hl _ (List.mem_cons_self _ _)
    · rw [versionBitsStep_other c e pos hd]
      exact hc pos

/-- The version-bits table of Signet does not depend on the options. -/
theorem SigNetParams_members_vDeployments (options : SigNetOptions) :
    (SigNetParams_members options).consensus.vDeployments
      = { testdummy :=
            { bit := 28, nStartTime := NEVER_ACTIVE, nTimeout := NO_TIMEOUT,
              min_activation_height := 0 }
          taproot :=
            { bit := 2, nStartTime := ALWAYS_ACTIVE, nTimeout := NO_TIMEOUT,
              min_activation_height := 0 } } := rfl

/-- The legacy heights of Signet are all 1, whatever the options. -/
theorem SigNetParams_members_height (options : SigNetOptions) (dep : BuriedDeployment) :
    (SigNetParams_members options).consensus.DeploymentHeight dep = 1 := by
  cases dep <;> rfl

/-- The parameters a factory returned are the members its class populates. -/
theorem factory_members (opts : RegTestOptions) (p : CChainParams)
    (hp : CChainParams.Main = some p ∨ CChainParams.TestNet = some p
      ∨ p = CTestNet4Params_members ∨ (∃ options, CChainParams.SigNet options = some p)
      ∨ CChainParams.RegTest opts = some p) :
    p = CMainParams_members ∨ p = CTestNetParams_members ∨ p = CTestNet4Params_members
      ∨ (∃ options, p = SigNetParams_members options) ∨ p = CRegTestParams_members opts := by
  rcases hp with h | h | h | ⟨o, h⟩ | h
  · exact Or.inl (Option.some.inj (CMainParams_eq.symm.trans h)).symm
  · exact Or.inr (Or.inl (Option.some.inj (CTestNetParams_eq.symm.trans h)).symm)
  · exact Or.inr (Or.inr (Or.inl h))
  · exact Or.inr (Or.inr (Or.inr (Or.inl
      ⟨o, (Option.some.inj ((SigNetParams_eq o).symm.trans h)).symm⟩)))
  · exact Or.inr (Or.inr (Or.inr (Or.inr
      (Option.some.inj ((CRegTestParams_eq opts).symm.trans h)).symm)))

/-- The bit positions of Regtest are 1 for TESTDUMMY and 2 for TAPROOT under
every options value. -/
theorem CRegTestParams_consensus_bit (opts : RegTestOptions) (pos : DeploymentPos) :
    ((CRegTestParams_consensus opts).vDeployments.get pos).bit
      = if pos = DeploymentPos.DEPLOYMENT_TESTDUMMY then 1 else 2 := by
  rw [CRegTestParams_consensus_vDeployments, versionBits_bit, activationHeights_vDeployments]
  cases pos <;> rfl

/-- The signature script of the genesis coinbase before the message is pushed:
the push of 486604799 and the push of 4. -/
theorem genesis_scriptSig_head :
    CScript_pushScriptNum (CScript_pushInt64 [] 486604799) 4
      = [0x04, 0xff, 0xff, 0x00, 0x1d, 0x01, 0x04] := by
  decide

/-- The Merkle root of a genesis block does not depend on the header
arguments. -/
theorem CreateGenesisBlock_merkle_header_free (pszTimestamp : List Nat)
    (genesisOutputScript : CScript) (genesisReward : Int) (nTime nNonce nBits : Nat)
    (nVersion : Int) (nTime' nNonce' nBits' : Nat) (nVersion' : Int) :
    (CreateGenesisBlock pszTimestamp genesisOutputScript nTime nNonce nBits nVersion
        genesisReward).hashMerkleRoot
      = (CreateGenesisBlock pszTimestamp genesisOutputScript nTime' nNonce' nBits' nVersion'
        genesisReward).hashMerkleRoot := by
  simp only [CreateGenesisBlock, BlockMerkleRoot]

/-- The null hash is what the hex reader gives for the empty string. -/
theorem uint256S_empty : uint256S "" = uint256_null := by decide

/-- C1, as the code behaves: `GetNetworkForMagic` applied to the message start
of each of the five default variants does not return that variant's chain type;
it aborts, because it constructs `TestNet4()` first and that constructor's
genesis assertion fails. -/
theorem C1_GetNetworkForMagic_own_magic_aborts :
    GetNetworkForMagic CMainParams_members.MessageStart = none
    ∧ GetNetworkForMagic CTestNetParams_members.MessageStart = none
    ∧ GetNetworkForMagic CTestNet4Params_members.MessageStart = none
    ∧ GetNetworkForMagic (CRegTestParams_members {}).MessageStart = none
    ∧ GetNetworkForMagic (SigNetParams_members {}).MessageStart = none
    ∧ CMainParams_members.MessageStart = [0xf8, 0xbc, 0xb3, 0xd7]
    ∧ CChainParams.Main = some CMainParams_members
    ∧ CChainParams.TestNet4 = none :=
  ⟨GetNetworkForMagic_eq_none _, GetNetworkForMagic_eq_none _, GetNetworkForMagic_eq_none _,
    GetNetworkForMagic_eq_none _, GetNetworkForMagic_eq_none _, rfl, CMainParams_eq,
    CTestNet4Params_eq_none⟩

/-- C2, as the code behaves: for every input `GetNetworkForMagic` aborts while
building the Testnet4 parameters, so it returns neither the first matching
variant nor `nullopt`; in particular it does so for the magic of Main and for
the four zero bytes, which equal none of the magics. -/
theorem C2_GetNetworkForMagic_never_returns :
    (∀ message : List Nat, GetNetworkForMagic message = none)
    ∧ GetNetworkForMagic [0xf8, 0xbc, 0xb3, 0xd7] ≠ some (some ChainType.MAIN)
    ∧ GetNetworkForMagic [0, 0, 0, 0] ≠ some none := by
  refine ⟨GetNetworkForMagic_eq_none, ?_, ?_⟩
  · rw [GetNetworkForMagic_eq_none]; exact fun h => nomatch h
  · rw [GetNetworkForMagic_eq_none]; exact fun h => nomatch h

set_option maxRecDepth 1000000 in
/-- C3 as stated fails: with default options the signet magic is `57 ef 27 7a`,
while the first 4 bytes of the double hash of the bare challenge bytes are
`bb 4a 0c 70`. -/
theorem C3_counterexample :
    CChainParams.SigNet {} = some (SigNetParams_members {})
    ∧ (SigNetParams_members {}).MessageStart = [0x57, 0xef, 0x27, 0x7a]
    ∧ (Hash256 SigNetParams_defaultChallenge).take 4 = [0xbb, 0x4a, 0x0c, 0x70]
    ∧ (SigNetParams_members {}).MessageStart ≠ (Hash256 SigNetParams_defaultChallenge).take 4 := by
  have h1 : (SigNetParams_members {}).MessageStart = [0x57, 0xef, 0x27, 0x7a] := by decide!
  have h2 : (Hash256 SigNetParams_defaultChallenge).take 4 = [0xbb, 0x4a, 0x0c, 0x70] := by
    decide!
  refine ⟨SigNetParams_eq _, h1, h2, ?_⟩
  rw [h1, h2]
  decide

/-- C3, amended: for every options value the signet constructor returns, and
its 4-byte magic is the first 4 bytes of the double hash of the serialized
challenge, that is of the compact-size length of the challenge followed by the
challenge bytes (the default challenge when none is supplied). -/
theorem C3_signet_magic_hashes_serialized_challenge (options : SigNetOptions) :
    ∃ p, CChainParams.SigNet options = some p
      ∧ p.MessageStart
        = (Hash256 (WriteCompactSize (options.challenge.getD SigNetParams_defaultChallenge).length
            ++ options.challenge.getD SigNetParams_defaultChallenge)).take 4
      ∧ p.MessageStart.length = 4 := by
  refine ⟨SigNetParams_members options, SigNetParams_eq options, ?_, ?_⟩
  · cases options with
    | mk challenge seeds => cases challenge <;> rfl
  · simp [CChainParams.MessageStart, SigNetParams_members, SigNetParams_messageStart,
      Hash256_length]

set_option maxRecDepth 1000000 in
/-- C4 as stated fails: the challenges `42 d7 00 00` and `b0 d7 00 00` differ,
yet both constructed signets have the magic `1e 15 0f 15`. -/
theorem C4_counterexample :
    CChainParams.SigNet { challenge := some [0x42, 0xd7, 0x00, 0x00] }
      = some (SigNetParams_members { challenge := some [0x42, 0xd7, 0x00, 0x00] })
    ∧ CChainParams.SigNet { challenge := some [0xb0, 0xd7, 0x00, 0x00] }
      = some (SigNetParams_members { challenge := some [0xb0, 0xd7, 0x00, 0x00] })
    ∧ ([0x42, 0xd7, 0x00, 0x00] : List Nat) ≠ [0xb0, 0xd7, 0x00, 0x00]
    ∧ (SigNetParams_members { challenge := some [0x42, 0xd7, 0x00, 0x00] }).MessageStart
      = [0x1e, 0x15, 0x0f, 0x15]
    ∧ (SigNetParams_members { challenge := some [0xb0, 0xd7, 0x00, 0x00] }).MessageStart
      = [0x1e, 0x15, 0x0f, 0x15] := by
  refine ⟨SigNetParams_eq _, SigNetParams_eq _, by decide, ?_, ?_⟩
  · decide!
  · decide!

/-- C4, amended: the magic of a signet is a function of its challenge alone.
Two constructed signets have different magics exactly when the double hashes of
their serialized challenges differ in the first 4 bytes, and then their
challenges differ. -/
theorem C4_signet_magic_follows_challenge (o1 o2 : SigNetOptions) (p1 p2 : CChainParams)
    (h1 : CChainParams.SigNet o1 = some p1) (h2 : CChainParams.SigNet o2 = some p2) :
    (p1.MessageStart ≠ p2.MessageStart
      ↔ (Hash256 (SerializeBytes (SigNetParams_bin o1))).take 4
          ≠ (Hash256 (SerializeBytes (SigNetParams_bin o2))).take 4)
    ∧ (p1.MessageStart ≠ p2.MessageStart → SigNetParams_bin o1 ≠ SigNetParams_bin o2)
    ∧ p1.consensus.signet_challenge = SigNetParams_bin o1
    ∧ p2.consensus.signet_challenge = SigNetParams_bin o2 := by
  have e1 : p1 = SigNetParams_members o1 :=
    (Option.some.inj ((SigNetParams_eq o1).symm.trans h1)).symm
  have e2 : p2 = SigNetParams_members o2 :=
    (Option.some.inj ((SigNetParams_eq o2).symm.trans h2)).symm
  subst e1 e2
  refine ⟨Iff.rfl, ?_, rfl, rfl⟩
  intro hne heq
  apply hne
  show SigNetParams_messageStart (SigNetParams_bin o1)
    = SigNetParams_messageStart (SigNetParams_bin o2)
  rw [heq]

set_option maxRecDepth 1000000 in
/-- C4, amended, at the default challenge and the one-byte challenge `51`: the
two magics, `57 ef 27 7a` and `54 d2 6f bd`, differ. -/
theorem C4_signet_magic_follows_challenge_witness :
    (SigNetParams_members {}).MessageStart
        ≠ (SigNetParams_members { challenge := some [0x51] }).MessageStart
    ∧ SigNetParams_bin {} ≠ SigNetParams_bin { challenge := some [0x51] } :=
  have hne : (SigNetParams_members {}).MessageStart
      ≠ (SigNetParams_members { challenge := some [0x51] }).MessageStart := by decide!
  ⟨hne, (C4_signet_magic_follows_challenge {} { challenge := some [0x51] } _ _
    (SigNetParams_eq _) (SigNetParams_eq _)).2.1 hne⟩

/-- C5, as the code behaves: the genesis block built by `CTestNet4Params` has
identity hash `228d2a31...` and Merkle root `c880292c...`, neither of which is
the literal pinned in that constructor's assertions, so the construction
aborts; the assertions of the other four constructors hold for every options
value. -/
theorem C5_TestNet4_genesis_assertions_fail :
    CChainParams.TestNet4 = none
    ∧ CBlock_GetHash CTestNet4Params_genesis
        = uint256S "228d2a315e7e50b4f68950f3653a01d098c240f02a293353bb05b8aafcfbfff5"
    ∧ CBlock_GetHash CTestNet4Params_genesis
        ≠ uint256S "6b871c79b17729663ef8c6da282cdf411481cf22dd92f0721e88c4ce76f2d6ae"
    ∧ CTestNet4Params_genesis.hashMerkleRoot
        = uint256S "c880292c273764dd51d989dacb81c768de2404ac16aa9bb663f5e320edfa66f2"
    ∧ CTestNet4Params_genesis.hashMerkleRoot
        ≠ uint256S "7aa0a7ae1e223414cb807e40cd57e667b718e42aaf9306db9102fe28912b7b4e"
    ∧ CChainParams.Main = some CMainParams_members
    ∧ CChainParams.TestNet = some CTestNetParams_members
    ∧ (∀ options, CChainParams.SigNet options = some (SigNetParams_members options))
    ∧ (∀ options, CChainParams.RegTest options = some (CRegTestParams_members options)) :=
  ⟨CTestNet4Params_eq_none, CTestNet4Params_genesis_hash, CTestNet4Params_genesis_hash_ne,
    CTestNet4Params_genesis_merkle, CTestNet4Params_genesis_merkle_ne, CMainParams_eq,
    CTestNetParams_eq, SigNetParams_eq, CRegTestParams_eq⟩

/-- C6: for every input `CreateGenesisBlock` returns a block with a null
previous-block hash, the supplied `nTime`, `nNonce`, `nBits` and `nVersion`,
and exactly one transaction, of version 1, with exactly one input, whose
previous output is null, and exactly one output, carrying the supplied reward
and the supplied script. -/
theorem C6_CreateGenesisBlock_shape (pszTimestamp : List Nat) (genesisOutputScript : CScript)
    (nTime nNonce nBits : Nat) (nVersion : Int) (genesisReward : Int) :
    (CreateGenesisBlock pszTimestamp genesisOutputScript nTime nNonce nBits nVersion
        genesisReward).hashPrevBlock = uint256_null
    ∧ uint256_IsNull (CreateGenesisBlock pszTimestamp genesisOutputScript nTime nNonce nBits
        nVersion genesisReward).hashPrevBlock = true
    ∧ (CreateGenesisBlock pszTimestamp genesisOutputScript nTime nNonce nBits nVersion
        genesisReward).nTime = nTime
    ∧ (CreateGenesisBlock pszTimestamp genesisOutputScript nTime nNonce nBits nVersion
        genesisReward).nNonce = nNonce
    ∧ (CreateGenesisBlock pszTimestamp genesisOutputScript nTime nNonce nBits nVersion
        genesisReward).nBits = nBits
    ∧ (CreateGenesisBlock pszTimestamp genesisOutputScript nTime nNonce nBits nVersion
        genesisReward).nVersion = nVersion
    ∧ ∃ tx txin txout,
        (CreateGenesisBlock pszTimestamp genesisOutputScript nTime nNonce nBits nVersion
          genesisReward).vtx = [tx]
        ∧ tx.version = 1
        ∧ tx.vin = [txin]
        ∧ txin.prevout = COutPoint_null
        ∧ COutPoint_IsNull txin.prevout = true
        ∧ tx.vout = [txout]
        ∧ txout.nValue = genesisReward
        ∧ txout.scriptPubKey = genesisOutputScript := by
  refine ⟨rfl, ?_, rfl, rfl, rfl, rfl, ?_⟩
  · simp only [CreateGenesisBlock]
    decide
  · simp only [CreateGenesisBlock, CMutableTransaction_default, CTxIn_default, CTxOut_default,
      CBlock_default, MakeTransactionRef, List.modifyHead, List.nil_append]
    refine ⟨_, _, _, rfl, rfl, rfl, rfl, ?_, rfl, rfl, rfl⟩
    show COutPoint_IsNull COutPoint_null = true
    decide

/-- C7: for every input the Merkle root stored in the block returned by
`CreateGenesisBlock` is the identity hash of the block's single transaction,
by the single-element Merkle law. -/
theorem C7_genesis_merkle_root_is_coinbase_hash (pszTimestamp : List Nat)
    (genesisOutputScript : CScript) (nTime nNonce nBits : Nat) (nVersion : Int)
    (genesisReward : Int) :
    ∃ tx,
      (CreateGenesisBlock pszTimestamp genesisOutputScript nTime nNonce nBits nVersion
        genesisReward).vtx = [tx]
      ∧ (CreateGenesisBlock pszTimestamp genesisOutputScript nTime nNonce nBits nVersion
        genesisReward).hashMerkleRoot = CTransaction_GetHash tx
      ∧ ComputeMerkleRoot [CTransaction_GetHash tx] = CTransaction_GetHash tx
      ∧ BlockMerkleRoot (CreateGenesisBlock pszTimestamp genesisOutputScript nTime nNonce nBits
        nVersion genesisReward) = CTransaction_GetHash tx :=
  ⟨_, rfl, rfl, rfl, rfl⟩

/-- C8: for every options value that supplies a challenge, the signet
constructor returns parameters whose minimum chain work is zero, whose default
assume-valid hash is null, whose consensus challenge is the supplied bytes, and
whose signet flag is set. -/
theorem C8_custom_signet_resets_bounds (options : SigNetOptions) (challenge : List Nat)
    (h : options.challenge = some challenge) :
    ∃ p, CChainParams.SigNet options = some p
      ∧ p.consensus.nMinimumChainWork = uint256_null
      ∧ p.consensus.defaultAssumeValid = uint256_null
      ∧ p.consensus.signet_challenge = challenge
      ∧ p.consensus.signet_blocks = true := by
  refine ⟨SigNetParams_members options, SigNetParams_eq options, ?_, ?_, ?_, rfl⟩
  · simp only [SigNetParams_members, h]
  · simp only [SigNetParams_members, h]
  · simp only [SigNetParams_members, SigNetParams_bin, h]

/-- C8 at the one-byte challenge `51`. -/
theorem C8_custom_signet_resets_bounds_witness :
    ∃ p, CChainParams.SigNet { challenge := some [0x51] } = some p
      ∧ p.consensus.nMinimumChainWork = uint256_null
      ∧ p.consensus.defaultAssumeValid = uint256_null
      ∧ p.consensus.signet_challenge = [0x51]
      ∧ p.consensus.signet_blocks = true :=
  C8_custom_signet_resets_bounds { challenge := some [0x51] } [0x51] rfl

/-- C9: for every regtest options value whose activation-height table has
pairwise distinct keys (it is a map), the constructor returns parameters in
which each of the five legacy activation heights is the height of its entry
when the table names it, and otherwise the default: 1 for BIP34, BIP65, BIP66
and CSV, 0 for Segwit. A table that names one id thus leaves the other four
heights at their defaults. -/
theorem C9_regtest_activation_heights (opts : RegTestOptions)
    (hkeys : (opts.activation_heights.map Prod.fst).Nodup) :
    ∃ p, CChainParams.RegTest opts = some p
      ∧ (∀ dep height, (dep, height) ∈ opts.activation_heights →
          p.consensus.DeploymentHeight dep = height)
      ∧ (∀ dep, dep ∉ opts.activation_heights.map Prod.fst →
          p.consensus.DeploymentHeight dep
            = if dep = BuriedDeployment.DEPLOYMENT_SEGWIT then 0 else 1)
      ∧ p.consensus.DeploymentHeight BuriedDeployment.DEPLOYMENT_SEGWIT = p.consensus.SegwitHeight
      ∧ p.consensus.DeploymentHeight BuriedDeployment.DEPLOYMENT_HEIGHTINCB
          = p.consensus.BIP34Height
      ∧ p.consensus.DeploymentHeight BuriedDeployment.DEPLOYMENT_DERSIG = p.consensus.BIP66Height
      ∧ p.consensus.DeploymentHeight BuriedDeployment.DEPLOYMENT_CLTV = p.consensus.BIP65Height
      ∧ p.consensus.DeploymentHeight BuriedDeployment.DEPLOYMENT_CSV = p.consensus.CSVHeight := by
  refine ⟨CRegTestParams_members opts, CRegTestParams_eq opts, ?_, ?_, rfl, rfl, rfl, rfl, rfl⟩
  · intro dep height hm
    show (CRegTestParams_consensus opts).DeploymentHeight dep = height
    rw [CRegTestParams_consensus_height]
    exact activationHeights_present _ dep height _ hkeys hm
  · intro dep hnot
    show (CRegTestParams_consensus opts).DeploymentHeight dep = _
    rw [CRegTestParams_consensus_height, activationHeights_absent _ dep _ hnot]
    cases dep <;> rfl

/-- C9 at a table naming Segwit (height 10) and CSV (height 432). -/
theorem C9_regtest_activation_heights_witness :
    ∃ p, CChainParams.RegTest
        { activation_heights := [(BuriedDeployment.DEPLOYMENT_SEGWIT, 10),
            (BuriedDeployment.DEPLOYMENT_CSV, 432)] } = some p
      ∧ p.consensus.SegwitHeight = 10
      ∧ p.consensus.CSVHeight = 432
      ∧ p.consensus.BIP34Height = 1
      ∧ p.consensus.BIP65Height = 1
      ∧ p.consensus.BIP66Height = 1 := by
  obtain ⟨p, hp, hin, hout, h1, h2, h3, h4, h5⟩ := C9_regtest_activation_heights
    { activation_heights := [(BuriedDeployment.DEPLOYMENT_SEGWIT, 10),
        (BuriedDeployment.DEPLOYMENT_CSV, 432)] } (by decide)
  refine ⟨p, hp, ?_, ?_, ?_, ?_, ?_⟩
  · rw [← h1]; exact hin _ _ (by decide)
  · rw [← h5]; exact hin _ _ (by decide)
  · rw [← h2, hout _ (by decide)]; rfl
  · rw [← h4, hout _ (by decide)]; rfl
  · rw [← h3, hout _ (by decide)]; rfl

/-- C10: for every regtest options value whose version-bits table has pairwise
distinct keys (it is a map), the constructor returns parameters in which a
deployment named by the table has the start time, timeout and minimum
activation height of its entry, every deployment keeps its bit position (1 for
TESTDUMMY, 2 for TAPROOT), and a deployment the table does not name is at its
default. -/
theorem C10_regtest_version_bits (opts : RegTestOptions)
    (hkeys : (opts.version_bits_parameters.map Prod.fst).Nodup) :
    ∃ p, CChainParams.RegTest opts = some p
      ∧ (∀ pos vb, (pos, vb) ∈ opts.version_bits_parameters →
          (p.consensus.vDeployments.get pos).nStartTime = vb.start_time
          ∧ (p.consensus.vDeployments.get pos).nTimeout = vb.timeout
          ∧ (p.consensus.vDeployments.get pos).min_activation_height = vb.min_activation_height)
      ∧ (p.consensus.vDeployments.get DeploymentPos.DEPLOYMENT_TESTDUMMY).bit = 1
      ∧ (p.consensus.vDeployments.get DeploymentPos.DEPLOYMENT_TAPROOT).bit = 2
      ∧ (DeploymentPos.DEPLOYMENT_TESTDUMMY ∉ opts.version_bits_parameters.map Prod.fst →
          p.consensus.vDeployments.get DeploymentPos.DEPLOYMENT_TESTDUMMY
            = { bit := 1, nStartTime := 0, nTimeout := NO_TIMEOUT, min_activation_height := 0 })
      ∧ (DeploymentPos.DEPLOYMENT_TAPROOT ∉ opts.version_bits_parameters.map Prod.fst →
          p.consensus.vDeployments.get DeploymentPos.DEPLOYMENT_TAPROOT
            = { bit := 2, nStartTime := ALWAYS_ACTIVE, nTimeout := NO_TIMEOUT,
                min_activation_height := 0 })
      ∧ p.consensus.vDeployments.get DeploymentPos.DEPLOYMENT_TESTDUMMY
          = p.consensus.vDeployments.testdummy
      ∧ p.consensus.vDeployments.get DeploymentPos.DEPLOYMENT_TAPROOT
          = p.consensus.vDeployments.taproot := by
  refine ⟨CRegTestParams_members opts, CRegTestParams_eq opts, ?_, ?_, ?_, ?_, ?_, rfl, rfl⟩
  · intro pos vb hm
    show ((CRegTestParams_consensus opts).vDeployments.get pos).nStartTime = _
      ∧ ((CRegTestParams_consensus opts).vDeployments.get pos).nTimeout = _
      ∧ ((CRegTestParams_consensus opts).vDeployments.get pos).min_activation_height = _
    rw [CRegTestParams_consensus_vDeployments, versionBits_present _ pos vb _ hkeys hm]
    exact ⟨rfl, rfl, rfl⟩
  · show ((CRegTestParams_consensus opts).vDeployments.get _).bit = 1
    rw [CRegTestParams_consensus_vDeployments, versionBits_bit]
    show ((List.foldl CRegTestParams_activationHeightStep _ _).vDeployments.get _).bit = 1
    rw [activationHeights_vDeployments]
    rfl
  · show ((CRegTestParams_consensus opts).vDeployments.get _).bit = 2
    rw [CRegTestParams_consensus_vDeployments, versionBits_bit]
    show ((List.foldl CRegTestParams_activationHeightStep _ _).vDeployments.get _).bit = 2
    rw [activationHeights_vDeployments]
    rfl
  · intro hnot
    show (CRegTestParams_consensus opts).vDeployments.get _ = _
    rw [CRegTestParams_consensus_vDeployments, versionBits_absent _ _ _ hnot]
    show (List.foldl CRegTestParams_activationHeightStep _ _).vDeployments.get _ = _
    rw [activationHeights_vDeployments]
    rfl
  · intro hnot
    show (CRegTestParams_consensus opts).vDeployments.get _ = _
    rw [CRegTestParams_consensus_vDeployments, versionBits_absent _ _ _ hnot]
    show (List.foldl CRegTestParams_activationHeightStep _ _).vDeployments.get _ = _
    rw [activationHeights_vDeployments]
    rfl

/-- C10 at a table naming TAPROOT only, with start time 100, timeout 200 and
minimum activation height 300. -/
theorem C10_regtest_version_bits_witness :
    ∃ p, CChainParams.RegTest
        { version_bits_parameters := [(DeploymentPos.DEPLOYMENT_TAPROOT,
            { start_time := 100, timeout := 200, min_activation_height := 300 })] } = some p
      ∧ p.consensus.vDeployments.taproot
          = { bit := 2, nStartTime := 100, nTimeout := 200, min_activation_height := 300 }
      ∧ p.consensus.vDeployments.testdummy
          = { bit := 1, nStartTime := 0, nTimeout := NO_TIMEOUT, min_activation_height := 0 } := by
  obtain ⟨p, hp, hin, _, hbit, hdummy, _, h1, h2⟩ := C10_regtest_version_bits
    { version_bits_parameters := [(DeploymentPos.DEPLOYMENT_TAPROOT,
        { start_time := 100, timeout := 200, min_activation_height := 300 })] } (by decide)
  refine ⟨p, hp, ?_, ?_⟩
  · obtain ⟨a, b, c⟩ := hin DeploymentPos.DEPLOYMENT_TAPROOT
      { start_time := 100, timeout := 200, min_activation_height := 300 } (by decide)
    rw [← h2]
    rw [h2] at a b c hbit
    cases hq : p.consensus.vDeployments.taproot with
    | mk bit s t m =>
      rw [hq] at a b c hbit
      simp only at a b c hbit
      rw [h2, hq, a, b, c, hbit]
  · rw [← h1]; exact hdummy (by decide)

/-- C11: the regtest override tables are order-independent for distinct keys
and last-write-wins for repeated keys. Two options values that differ only by
the order of the entries of tables with pairwise distinct keys construct the
same parameters; and in any entry sequence the last entry for a deployment is
the one found in the constructed parameters. -/
theorem C11_regtest_tables_order_and_last_write (opts opts' : RegTestOptions)
    (hheights : opts.activation_heights.Perm opts'.activation_heights)
    (hbits : opts.version_bits_parameters.Perm opts'.version_bits_parameters)
    (hprune : opts.fastprune = opts'.fastprune) (h94 : opts.enforce_bip94 = opts'.enforce_bip94)
    (hk1 : (opts.activation_heights.map Prod.fst).Nodup)
    (hk2 : (opts.version_bits_parameters.map Prod.fst).Nodup) :
    CChainParams.RegTest opts = CChainParams.RegTest opts'
    ∧ (∃ p, CChainParams.RegTest opts = some p)
    ∧ (∀ (o : RegTestOptions) (before after : List (BuriedDeployment × Int))
        (dep : BuriedDeployment) (height : Int),
        o.activation_heights = before ++ (dep, height) :: after →
        dep ∉ after.map Prod.fst →
        ∃ p, CChainParams.RegTest o = some p ∧ p.consensus.DeploymentHeight dep = height)
    ∧ (∀ (o : RegTestOptions) (before after : List (DeploymentPos × VersionBitsParameters))
        (pos : DeploymentPos) (vb : VersionBitsParameters),
        o.version_bits_parameters = before ++ (pos, vb) :: after →
        pos ∉ after.map Prod.fst →
        ∃ p, CChainParams.RegTest o = some p
          ∧ (p.consensus.vDeployments.get pos).nStartTime = vb.start_time
          ∧ (p.consensus.vDeployments.get pos).nTimeout = vb.timeout
          ∧ (p.consensus.vDeployments.get pos).min_activation_height
              = vb.min_activation_height) := by
  refine ⟨?_, ⟨_, CRegTestParams_eq opts⟩, ?_, ?_⟩
  · show CRegTestParams opts = CRegTestParams opts'
    rw [CRegTestParams_eq, CRegTestParams_eq]
    have hc : CRegTestParams_consensus opts = CRegTestParams_consensus opts' := by
      have hd : CRegTestParams_consensusDefaults opts = CRegTestParams_consensusDefaults opts' := by
        simp only [CRegTestParams_consensusDefaults, h94]
      simp only [CRegTestParams_consensus]
      rw [activationHeights_perm _ _ hheights hk1, versionBits_perm _ _ hbits hk2, hd]
    simp only [CRegTestParams_members, hc, hprune]
  · intro o before after dep height hsplit hlast
    refine ⟨CRegTestParams_members o, CRegTestParams_eq o, ?_⟩
    show (CRegTestParams_consensus o).DeploymentHeight dep = height
    rw [CRegTestParams_consensus_height, hsplit, List.foldl_append, List.foldl_cons,
      activationHeights_absent after dep _ hlast, activationHeightStep_self]
  · intro o before after pos vb hsplit hlast
    refine ⟨CRegTestParams_members o, CRegTestParams_eq o, ?_⟩
    show ((CRegTestParams_consensus o).vDeployments.get pos).nStartTime = _
      ∧ ((CRegTestParams_consensus o).vDeployments.get pos).nTimeout = _
      ∧ ((CRegTestParams_consensus o).vDeployments.get pos).min_activation_height = _
    rw [CRegTestParams_consensus_vDeployments, hsplit, List.foldl_append, List.foldl_cons,
      versionBits_absent after pos _ hlast, versionBitsStep_self]
    exact ⟨rfl, rfl, rfl⟩

/-- C11 at two orders of a height table naming Segwit and CSV and of a
version-bits table naming both deployments. -/
theorem C11_regtest_tables_order_and_last_write_witness :
    CChainParams.RegTest
        { activation_heights := [(BuriedDeployment.DEPLOYMENT_SEGWIT, 10),
            (BuriedDeployment.DEPLOYMENT_CSV, 432)]
          version_bits_parameters :=
            [(DeploymentPos.DEPLOYMENT_TAPROOT, ⟨100, 200, 300⟩),
             (DeploymentPos.DEPLOYMENT_TESTDUMMY, ⟨5, 6, 7⟩)] }
      = CChainParams.RegTest
        { activation_heights := [(BuriedDeployment.DEPLOYMENT_CSV, 432),
            (BuriedDeployment.DEPLOYMENT_SEGWIT, 10)]
          version_bits_parameters :=
            [(DeploymentPos.DEPLOYMENT_TESTDUMMY, ⟨5, 6, 7⟩),
             (DeploymentPos.DEPLOYMENT_TAPROOT, ⟨100, 200, 300⟩)] } :=
  (C11_regtest_tables_order_and_last_write
    { activation_heights := [(BuriedDeployment.DEPLOYMENT_SEGWIT, 10),
        (BuriedDeployment.DEPLOYMENT_CSV, 432)]
      version_bits_parameters :=
        [(DeploymentPos.DEPLOYMENT_TAPROOT, ⟨100, 200, 300⟩),
         (DeploymentPos.DEPLOYMENT_TESTDUMMY, ⟨5, 6, 7⟩)] }
    { activation_heights := [(BuriedDeployment.DEPLOYMENT_CSV, 432),
        (BuriedDeployment.DEPLOYMENT_SEGWIT, 10)]
      version_bits_parameters :=
        [(DeploymentPos.DEPLOYMENT_TESTDUMMY, ⟨5, 6, 7⟩),
         (DeploymentPos.DEPLOYMENT_TAPROOT, ⟨100, 200, 300⟩)] }
    (List.Perm.swap _ _ _) (List.Perm.swap _ _ _) rfl rfl (by decide) (by decide)).1

set_option maxRecDepth 1000000 in
/-- C13: for every regtest options value the constructor returns parameters
with retargeting disabled and the proof-of-work limit `7fff...ff`, which as a
256-bit unsigned integer is at least the limit of Main, of Test, of Test-v4
and of Signet under any options. -/
theorem C13_regtest_loosest_pow_limit (opts : RegTestOptions) (options : SigNetOptions) :
    ∃ p, CChainParams.RegTest opts = some p
      ∧ p.consensus.fPowNoRetargeting = true
      ∧ UintToArith256 p.consensus.powLimit = 2 ^ 255 - 1
      ∧ UintToArith256 CMainParams_members.consensus.powLimit
          ≤ UintToArith256 p.consensus.powLimit
      ∧ UintToArith256 CTestNetParams_members.consensus.powLimit
          ≤ UintToArith256 p.consensus.powLimit
      ∧ UintToArith256 CTestNet4Params_members.consensus.powLimit
          ≤ UintToArith256 p.consensus.powLimit
      ∧ UintToArith256 (SigNetParams_members options).consensus.powLimit
          ≤ UintToArith256 p.consensus.powLimit
      ∧ CChainParams.Main = some CMainParams_members
      ∧ CChainParams.TestNet = some CTestNetParams_members
      ∧ CChainParams.SigNet options = some (SigNetParams_members options) := by
  obtain ⟨hpow, hret, -⟩ := CRegTestParams_consensus_fixed opts
  refine ⟨CRegTestParams_members opts, CRegTestParams_eq opts, hret, ?_, ?_, ?_, ?_, ?_,
    CMainParams_eq, CTestNetParams_eq, SigNetParams_eq options⟩
  · show UintToArith256 (CRegTestParams_consensus opts).powLimit = _
    rw [hpow]
    decide!
  · show _ ≤ UintToArith256 (CRegTestParams_consensus opts).powLimit
    rw [hpow]
    decide!
  · show _ ≤ UintToArith256 (CRegTestParams_consensus opts).powLimit
    rw [hpow]
    decide!
  · show _ ≤ UintToArith256 (CRegTestParams_consensus opts).powLimit
    rw [hpow]
    decide!
  · show UintToArith256
        (uint256S "00000377ae000000000000000000000000000000000000000000000000000000")
      ≤ UintToArith256 (CRegTestParams_consensus opts).powLimit
    rw [hpow]
    decide!

/-- C15 as stated fails for Regtest: a version-bits override with start time
200 and timeout 100 and a height override of -1 for CSV are taken as they are,
so the constructed rules have a finite timeout below its start time and a
negative legacy height. -/
theorem C15_counterexample :
    CChainParams.RegTest
        { version_bits_parameters := [(DeploymentPos.DEPLOYMENT_TAPROOT, ⟨200, 100, 0⟩)]
          activation_heights := [(BuriedDeployment.DEPLOYMENT_CSV, -1)] }
      = some (CRegTestParams_members
        { version_bits_parameters := [(DeploymentPos.DEPLOYMENT_TAPROOT, ⟨200, 100, 0⟩)]
          activation_heights := [(BuriedDeployment.DEPLOYMENT_CSV, -1)] })
    ∧ (CRegTestParams_members
        { version_bits_parameters := [(DeploymentPos.DEPLOYMENT_TAPROOT, ⟨200, 100, 0⟩)]
          activation_heights := [(BuriedDeployment.DEPLOYMENT_CSV, -1)] }).consensus.vDeployments.taproot
        = { bit := 2, nStartTime := 200, nTimeout := 100, min_activation_height := 0 }
    ∧ (100 : Int) ≠ NO_TIMEOUT
    ∧ ¬ ((200 : Int) < 100)
    ∧ (CRegTestParams_members
        { version_bits_parameters := [(DeploymentPos.DEPLOYMENT_TAPROOT, ⟨200, 100, 0⟩)]
          activation_heights := [(BuriedDeployment.DEPLOYMENT_CSV, -1)] }).consensus.CSVHeight
        = -1
    ∧ ¬ ((0 : Int) ≤ -1) :=
  ⟨CRegTestParams_eq _, rfl, by decide, by decide, rfl, by decide⟩

/-- C15, amended: in the parameters of Main, Test, Test-v4, Signet under any
options, and Regtest under options whose version-bits overrides each have no
timeout or a timeout above their start time and whose height overrides are
non-negative, every deployment with a finite timeout has it strictly above its
start time, and the five legacy activation heights are non-negative. -/
theorem C15_deployment_invariants (opts : RegTestOptions) (p : CChainParams)
    (hbits : ∀ e ∈ opts.version_bits_parameters,
      e.2.timeout ≠ NO_TIMEOUT → e.2.start_time < e.2.timeout)
    (hheights : ∀ e ∈ opts.activation_heights, 0 ≤ e.2)
    (hp : CChainParams.Main = some p ∨ CChainParams.TestNet = some p
      ∨ p = CTestNet4Params_members ∨ (∃ options, CChainParams.SigNet options = some p)
      ∨ CChainParams.RegTest opts = some p) :
    (∀ pos, (p.consensus.vDeployments.get pos).nTimeout ≠ NO_TIMEOUT →
      (p.consensus.vDeployments.get pos).nStartTime < (p.consensus.vDeployments.get pos).nTimeout)
    ∧ ∀ dep, 0 ≤ p.consensus.DeploymentHeight dep := by
  rcases factory_members opts p hp with h | h | h | ⟨o, h⟩ | h <;> subst h
  · exact ⟨fun pos => by cases pos <;> decide, fun dep => by cases dep <;> decide⟩
  · exact ⟨fun pos => by cases pos <;> decide, fun dep => by cases dep <;> decide⟩
  · exact ⟨fun pos => by cases pos <;> decide, fun dep => by cases dep <;> decide⟩
  · refine ⟨fun pos => ?_, fun dep => ?_⟩
    · rw [SigNetParams_members_vDeployments]
      cases pos <;> decide
    · rw [SigNetParams_members_height]
      decide
  · refine ⟨fun pos => ?_, fun dep => ?_⟩
    · show ((CRegTestParams_consensus opts).vDeployments.get pos).nTimeout ≠ NO_TIMEOUT → _
      rw [CRegTestParams_consensus_vDeployments]
      refine versionBits_timeouts _ hbits _ ?_ pos
      intro q
      rw [activationHeights_vDeployments]
      cases q <;> exact fun h => absurd rfl h
    · show 0 ≤ (CRegTestParams_consensus opts).DeploymentHeight dep
      rw [CRegTestParams_consensus_height]
      refine activationHeights_nonneg _ hheights _ ?_ dep
      intro d
      cases d <;> simp [CRegTestParams_consensusDefaults, Params.DeploymentHeight]

/-- C15, amended, at Regtest with TAPROOT overridden to start 100 and timeout
200 and CSV overridden to height 432. -/
theorem C15_deployment_invariants_witness :
    (∀ pos,
      ((CRegTestParams_members
          { version_bits_parameters := [(DeploymentPos.DEPLOYMENT_TAPROOT, ⟨100, 200, 0⟩)]
            activation_heights := [(BuriedDeployment.DEPLOYMENT_CSV, 432)]
          }).consensus.vDeployments.get pos).nTimeout ≠ NO_TIMEOUT →
      ((CRegTestParams_members
          { version_bits_parameters := [(DeploymentPos.DEPLOYMENT_TAPROOT, ⟨100, 200, 0⟩)]
            activation_heights := [(BuriedDeployment.DEPLOYMENT_CSV, 432)]
          }).consensus.vDeployments.get pos).nStartTime
        < ((CRegTestParams_members
          { version_bits_parameters := [(DeploymentPos.DEPLOYMENT_TAPROOT, ⟨100, 200, 0⟩)]
            activation_heights := [(BuriedDeployment.DEPLOYMENT_CSV, 432)]
          }).consensus.vDeployments.get pos).nTimeout)
    ∧ ∀ dep, 0 ≤ (CRegTestParams_members
          { version_bits_parameters := [(DeploymentPos.DEPLOYMENT_TAPROOT, ⟨100, 200, 0⟩)]
            activation_heights := [(BuriedDeployment.DEPLOYMENT_CSV, 432)]
          }).consensus.DeploymentHeight dep :=
  C15_deployment_invariants
    { version_bits_parameters := [(DeploymentPos.DEPLOYMENT_TAPROOT, ⟨100, 200, 0⟩)]
      activation_heights := [(BuriedDeployment.DEPLOYMENT_CSV, 432)] }
    _ (by decide) (by decide) (Or.inr (Or.inr (Or.inr (Or.inr (CRegTestParams_eq _)))))

/-- C16: the rule-change activation threshold is at most the miner
confirmation window in the parameters of every variant: 90 and 100 for Main,
Test and Test-v4, 108 and 144 for Signet and Regtest under any options. -/
theorem C16_threshold_le_window :
    (∃ p, CChainParams.Main = some p
      ∧ p.consensus.nRuleChangeActivationThreshold = 90
      ∧ p.consensus.nMinerConfirmationWindow = 100
      ∧ p.consensus.nRuleChangeActivationThreshold ≤ p.consensus.nMinerConfirmationWindow)
    ∧ (∃ p, CChainParams.TestNet = some p
      ∧ p.consensus.nRuleChangeActivationThreshold = 90
      ∧ p.consensus.nMinerConfirmationWindow = 100
      ∧ p.consensus.nRuleChangeActivationThreshold ≤ p.consensus.nMinerConfirmationWindow)
    ∧ (CTestNet4Params_members.consensus.nRuleChangeActivationThreshold = 90
      ∧ CTestNet4Params_members.consensus.nMinerConfirmationWindow = 100
      ∧ CTestNet4Params_members.consensus.nRuleChangeActivationThreshold
          ≤ CTestNet4Params_members.consensus.nMinerConfirmationWindow)
    ∧ (∀ options, ∃ p, CChainParams.SigNet options = some p
      ∧ p.consensus.nRuleChangeActivationThreshold = 108
      ∧ p.consensus.nMinerConfirmationWindow = 144
      ∧ p.consensus.nRuleChangeActivationThreshold ≤ p.consensus.nMinerConfirmationWindow)
    ∧ (∀ options, ∃ p, CChainParams.RegTest options = some p
      ∧ p.consensus.nRuleChangeActivationThreshold = 108
      ∧ p.consensus.nMinerConfirmationWindow = 144
      ∧ p.consensus.nRuleChangeActivationThreshold ≤ p.consensus.nMinerConfirmationWindow) := by
  refine ⟨⟨_, CMainParams_eq, rfl, rfl, by decide⟩, ⟨_, CTestNetParams_eq, rfl, rfl, by decide⟩,
    ⟨rfl, rfl, by decide⟩, fun o => ⟨_, SigNetParams_eq o, rfl, rfl, ?_⟩, fun o => ?_⟩
  · show (108 : Nat) ≤ 144
    decide
  · obtain ⟨-, -, -, -, ht, hw⟩ := CRegTestParams_consensus_fixed o
    refine ⟨_, CRegTestParams_eq o, ht, hw, ?_⟩
    show (CRegTestParams_consensus o).nRuleChangeActivationThreshold
      ≤ (CRegTestParams_consensus o).nMinerConfirmationWindow
    rw [ht, hw]
    decide

/-- C17: in the parameters of every variant (Main, Test, Test-v4, Signet and
Regtest under any options) every deployment's bit position lies between 0 and
28, and two different deployments neither of which is marked never-active have
different bit positions. -/
theorem C17_deployment_bits (opts : RegTestOptions) (p : CChainParams)
    (hp : CChainParams.Main = some p ∨ CChainParams.TestNet = some p
      ∨ p = CTestNet4Params_members ∨ (∃ options, CChainParams.SigNet options = some p)
      ∨ CChainParams.RegTest opts = some p) :
    (∀ pos, 0 ≤ (p.consensus.vDeployments.get pos).bit
      ∧ (p.consensus.vDeployments.get pos).bit ≤ 28)
    ∧ ∀ pos1 pos2, pos1 ≠ pos2 →
        (p.consensus.vDeployments.get pos1).nStartTime ≠ NEVER_ACTIVE →
        (p.consensus.vDeployments.get pos2).nStartTime ≠ NEVER_ACTIVE →
        (p.consensus.vDeployments.get pos1).bit ≠ (p.consensus.vDeployments.get pos2).bit := by
  rcases factory_members opts p hp with h | h | h | ⟨o, h⟩ | h <;> subst h
  · exact ⟨fun pos => by cases pos <;> decide,
      fun pos1 pos2 => by cases pos1 <;> cases pos2 <;> decide⟩
  · exact ⟨fun pos => by cases pos <;> decide,
      fun pos1 pos2 => by cases pos1 <;> cases pos2 <;> decide⟩
  · exact ⟨fun pos => by cases pos <;> decide,
      fun pos1 pos2 => by cases pos1 <;> cases pos2 <;> decide⟩
  · rw [SigNetParams_members_vDeployments]
    exact ⟨fun pos => by cases pos <;> decide,
      fun pos1 pos2 => by cases pos1 <;> cases pos2 <;> decide⟩
  · refine ⟨fun pos => ?_, fun pos1 pos2 hne _ _ => ?_⟩
    · show 0 ≤ ((CRegTestParams_consensus opts).vDeployments.get pos).bit
        ∧ ((CRegTestParams_consensus opts).vDeployments.get pos).bit ≤ 28
      rw [CRegTestParams_consensus_bit]
      cases pos <;> decide
    · show ((CRegTestParams_consensus opts).vDeployments.get pos1).bit
        ≠ ((CRegTestParams_consensus opts).vDeployments.get pos2).bit
      rw [CRegTestParams_consensus_bit, CRegTestParams_consensus_bit]
      cases pos1 <;> cases pos2 <;> first | exact absurd rfl hne | decide

/-- C17 at Test, whose two deployments share bit 2: the never-active TESTDUMMY
is the one the claim leaves out. -/
theorem C17_deployment_bits_witness :
    CTestNetParams_members.consensus.vDeployments.testdummy.bit = 2
    ∧ CTestNetParams_members.consensus.vDeployments.taproot.bit = 2
    ∧ CTestNetParams_members.consensus.vDeployments.testdummy.nStartTime = NEVER_ACTIVE
    ∧ (∀ pos, 0 ≤ (CTestNetParams_members.consensus.vDeployments.get pos).bit
      ∧ (CTestNetParams_members.consensus.vDeployments.get pos).bit ≤ 28)
    ∧ ∀ pos1 pos2, pos1 ≠ pos2 →
        (CTestNetParams_members.consensus.vDeployments.get pos1).nStartTime ≠ NEVER_ACTIVE →
        (CTestNetParams_members.consensus.vDeployments.get pos2).nStartTime ≠ NEVER_ACTIVE →
        (CTestNetParams_members.consensus.vDeployments.get pos1).bit
          ≠ (CTestNetParams_members.consensus.vDeployments.get pos2).bit :=
  ⟨rfl, rfl, rfl, C17_deployment_bits {} CTestNetParams_members (Or.inr (Or.inl CTestNetParams_eq))⟩

/-- C18: the checkpoint heights of every variant are strictly increasing. Main
is the only variant with more than one checkpoint: its list is non-empty, with
heights 0, 10000, 37820 and 50892. -/
theorem C18_checkpoints_strictly_increasing :
    (∃ p, CChainParams.Main = some p
      ∧ p.checkpointData.map Prod.fst = [0, 10000, 37820, 50892]
      ∧ p.checkpointData ≠ []
      ∧ (p.checkpointData.map Prod.fst).Pairwise (· < ·))
    ∧ (∃ p, CChainParams.TestNet = some p
      ∧ p.checkpointData.map Prod.fst = [546]
      ∧ (p.checkpointData.map Prod.fst).Pairwise (· < ·))
    ∧ (CTestNet4Params_members.checkpointData.map Prod.fst = [0]
      ∧ (CTestNet4Params_members.checkpointData.map Prod.fst).Pairwise (· < ·))
    ∧ (∀ options, ∃ p, CChainParams.SigNet options = some p
      ∧ p.checkpointData = []
      ∧ (p.checkpointData.map Prod.fst).Pairwise (· < ·))
    ∧ (∀ options, ∃ p, CChainParams.RegTest options = some p
      ∧ p.checkpointData.map Prod.fst = [0]
      ∧ (p.checkpointData.map Prod.fst).Pairwise (· < ·)) := by
  refine ⟨⟨_, CMainParams_eq, rfl, ?_, ?_⟩, ⟨_, CTestNetParams_eq, rfl, ?_⟩, ⟨rfl, ?_⟩,
    fun o => ⟨_, SigNetParams_eq o, rfl, List.Pairwise.nil⟩,
    fun o => ⟨_, CRegTestParams_eq o, rfl, ?_⟩⟩
  · exact fun h => nomatch h
  · show ([0, 10000, 37820, 50892] : List Int).Pairwise (· < ·)
    decide
  · exact List.pairwise_singleton _ _
  · exact List.pairwise_singleton _ _
  · exact List.pairwise_singleton _ _

/-- C19, as the code behaves: the allow-minimum-difficulty flag is set on Test
and Test-v4 and not on Main; `enforce_BIP94` is assigned `true` by the Test-v4
constructor, `false` by the Signet constructor and the option `enforce_bip94`
by the Regtest constructor, but the constructors of Main and of Test never
assign it. -/
theorem C19_difficulty_flags (options : SigNetOptions) (opts : RegTestOptions) :
    CMainParams_members.consensus.fPowAllowMinDifficultyBlocks = false
    ∧ CTestNetParams_members.consensus.fPowAllowMinDifficultyBlocks = true
    ∧ CTestNet4Params_members.consensus.fPowAllowMinDifficultyBlocks = true
    ∧ CTestNet4Params_members.consensus.enforce_BIP94 = some true
    ∧ (SigNetParams_members options).consensus.enforce_BIP94 = some false
    ∧ (CRegTestParams_members opts).consensus.enforce_BIP94 = some opts.enforce_bip94
    ∧ CMainParams_members.consensus.enforce_BIP94 = none
    ∧ CTestNetParams_members.consensus.enforce_BIP94 = none
    ∧ CChainParams.Main = some CMainParams_members
    ∧ CChainParams.TestNet = some CTestNetParams_members
    ∧ CChainParams.SigNet options = some (SigNetParams_members options)
    ∧ CChainParams.RegTest opts = some (CRegTestParams_members opts) :=
  ⟨rfl, rfl, rfl, rfl, rfl, (CRegTestParams_consensus_fixed opts).2.2.2.1, rfl, rfl,
    CMainParams_eq, CTestNetParams_eq, SigNetParams_eq options, CRegTestParams_eq opts⟩

/-- C20: for every timestamp message of 1 to 75 bytes the signature script of
the coinbase input built by `CreateGenesisBlock` is `04 ff ff 00 1d`, then
`01 04`, then one byte holding the message length, then the message bytes. -/
theorem C20_genesis_scriptSig (pszTimestamp : List Nat) (genesisOutputScript : CScript)
    (nTime nNonce nBits : Nat) (nVersion : Int) (genesisReward : Int)
    (hmin : 1 ≤ pszTimestamp.length) (hmax : pszTimestamp.length ≤ 75) :
    ∃ tx txin,
      (CreateGenesisBlock pszTimestamp genesisOutputScript nTime nNonce nBits nVersion
        genesisReward).vtx = [tx]
      ∧ tx.vin = [txin]
      ∧ txin.scriptSig
          = [0x04, 0xff, 0xff, 0x00, 0x1d] ++ [0x01, 0x04] ++ [pszTimestamp.length]
              ++ pszTimestamp
      ∧ le 486604799 4 = [0xff, 0xff, 0x00, 0x1d] := by
  simp only [CreateGenesisBlock, CMutableTransaction_default, CTxIn_default, CTxOut_default,
    CBlock_default, MakeTransactionRef, List.modifyHead, List.nil_append]
  refine ⟨_, _, rfl, rfl, ?_, by decide⟩
  show CScript_pushData (CScript_pushScriptNum (CScript_pushInt64 [] 486604799) 4) pszTimestamp
    = _
  rw [genesis_scriptSig_head]
  have hlt : pszTimestamp.length < 76 := by omega
  simp [CScript_pushData, OP_PUSHDATA1, hlt]

/-- C20 at the 46-byte message of this chain: the signature script is
`04ffff001d0104`, the length byte `2e` and the message. -/
theorem C20_genesis_scriptSig_witness :
    ∃ tx txin,
      (CreateGenesisBlock pszTimestamp [] 0 0 0 1 0).vtx = [tx]
      ∧ tx.vin = [txin]
      ∧ txin.scriptSig
          = [0x04, 0xff, 0xff, 0x00, 0x1d] ++ [0x01, 0x04] ++ [pszTimestamp.length]
              ++ pszTimestamp
      ∧ le 486604799 4 = [0xff, 0xff, 0x00, 0x1d] :=
  C20_genesis_scriptSig pszTimestamp [] 0 0 0 1 0 (by decide) (by decide)

/-- C21: the Merkle root of the block returned by `CreateGenesisBlock` is the
same for any two choices of `nTime`, `nNonce`, `nBits` and `nVersion`: it
depends on the message, the output script and the reward only. The genesis
blocks of Main, Test, Signet and Regtest, under any options, therefore share
one Merkle root, `6b871c79...f2d6ae`. -/
theorem C21_genesis_merkle_root_header_free (pszTimestamp : List Nat)
    (genesisOutputScript : CScript) (genesisReward : Int) (nTime nNonce nBits : Nat)
    (nVersion : Int) (nTime' nNonce' nBits' : Nat) (nVersion' : Int)
    (options : SigNetOptions) (opts : RegTestOptions) :
    (CreateGenesisBlock pszTimestamp genesisOutputScript nTime nNonce nBits nVersion
        genesisReward).hashMerkleRoot
      = (CreateGenesisBlock pszTimestamp genesisOutputScript nTime' nNonce' nBits' nVersion'
        genesisReward).hashMerkleRoot
    ∧ ∃ mainnet testnet signet regtest,
        CChainParams.Main = some mainnet
        ∧ CChainParams.TestNet = some testnet
        ∧ CChainParams.SigNet options = some signet
        ∧ CChainParams.RegTest opts = some regtest
        ∧ mainnet.genesis.hashMerkleRoot = testnet.genesis.hashMerkleRoot
        ∧ mainnet.genesis.hashMerkleRoot = signet.genesis.hashMerkleRoot
        ∧ mainnet.genesis.hashMerkleRoot = regtest.genesis.hashMerkleRoot
        ∧ mainnet.genesis.hashMerkleRoot
            = uint256S "6b871c79b17729663ef8c6da282cdf411481cf22dd92f0721e88c4ce76f2d6ae" := by
  refine ⟨CreateGenesisBlock_merkle_header_free _ _ _ _ _ _ _ _ _ _ _, _, _, _, _,
    CMainParams_eq, CTestNetParams_eq, SigNetParams_eq options, CRegTestParams_eq opts,
    ?_, ?_, ?_, CMainParams_genesis_merkle⟩
  · exact CreateGenesisBlock_merkle_header_free _ _ _ _ _ _ _ _ _ _ _
  · exact CreateGenesisBlock_merkle_header_free _ _ _ _ _ _ _ _ _ _ _
  · exact CreateGenesisBlock_merkle_header_free _ _ _ _ _ _ _ _ _ _ _

/-- C23: Main and Test build their genesis blocks from the same arguments
(time 1735689606, nonce 73204, bits 0x1e0ffff0, version 1), so the two
constructed parameter sets have equal genesis blocks and equal genesis
identity hashes, while their magics differ. -/
theorem C23_main_and_test_share_genesis :
    ∃ mainnet testnet,
      CChainParams.Main = some mainnet
      ∧ CChainParams.TestNet = some testnet
      ∧ mainnet.genesis = testnet.genesis
      ∧ mainnet.genesis
          = CreateGenesisBlockDefault 1735689606 73204 0x1e0ffff0 1 (5000000 * COIN)
      ∧ mainnet.genesis.nTime = 1735689606
      ∧ mainnet.genesis.nNonce = 73204
      ∧ mainnet.genesis.nBits = 0x1e0ffff0
      ∧ mainnet.genesis.nVersion = 1
      ∧ CBlock_GetHash mainnet.genesis = CBlock_GetHash testnet.genesis
      ∧ mainnet.consensus.hashGenesisBlock = testnet.consensus.hashGenesisBlock
      ∧ mainnet.consensus.hashGenesisBlock
          = uint256S "000000722d67deca36a08defdba9de43ffd698198bf1a9876b690475e14eb0b5"
      ∧ mainnet.MessageStart = [0xf8, 0xbc, 0xb3, 0xd7]
      ∧ testnet.MessageStart = [0x0b, 0x11, 0x09, 0x07]
      ∧ mainnet.MessageStart ≠ testnet.MessageStart
      ∧ mainnet.m_chain_type ≠ testnet.m_chain_type := by
  have hg : CMainParams_genesis = CTestNetParams_genesis := rfl
  refine ⟨CMainParams_members, CTestNetParams_members, CMainParams_eq, CTestNetParams_eq, hg,
    rfl, rfl, rfl, rfl, rfl, ?_, ?_, CMainParams_genesis_hash, rfl, rfl, ?_, ?_⟩
  · show CBlock_GetHash CMainParams_genesis = CBlock_GetHash CTestNetParams_genesis
    rw [hg]
  · show CBlock_GetHash CMainParams_genesis = CBlock_GetHash CTestNetParams_genesis
    rw [hg]
  · show ([0xf8, 0xbc, 0xb3, 0xd7] : List Nat) ≠ [0x0b, 0x11, 0x09, 0x07]
    decide
  · show ChainType.MAIN ≠ ChainType.TESTNET
    decide

/-- C24: for any two signet options the constructor returns parameters with
equal genesis blocks, equal genesis identity hashes, equal proof-of-work limits
and equal deployment tables; replacing in the first the challenge, the minimum
chain work, the assume-valid hash, the magic, the seeds, the two advisory sizes
and the transaction statistics by those of the second gives the second. -/
theorem C24_signet_options_frame (o1 o2 : SigNetOptions) :
    ∃ p1 p2,
      CChainParams.SigNet o1 = some p1
      ∧ CChainParams.SigNet o2 = some p2
      ∧ p1.genesis = p2.genesis
      ∧ CBlock_GetHash p1.genesis = CBlock_GetHash p2.genesis
      ∧ p1.consensus.hashGenesisBlock = p2.consensus.hashGenesisBlock
      ∧ p1.consensus.powLimit = p2.consensus.powLimit
      ∧ p1.consensus.vDeployments = p2.consensus.vDeployments
      ∧ ({ p1 with
            consensus :=
              { p1.consensus with
                signet_challenge := p2.consensus.signet_challenge
                nMinimumChainWork := p2.consensus.nMinimumChainWork
                defaultAssumeValid := p2.consensus.defaultAssumeValid }
            pchMessageStart := p2.pchMessageStart
            vSeeds := p2.vSeeds
            m_assumed_blockchain_size := p2.m_assumed_blockchain_size
            m_assumed_chain_state_size := p2.m_assumed_chain_state_size
            chainTxData := p2.chainTxData } : CChainParams) = p2
      ∧ p1.consensus.nMinimumChainWork = uint256_null
      ∧ p1.consensus.defaultAssumeValid = uint256_null := by
  refine ⟨SigNetParams_members o1, SigNetParams_members o2, SigNetParams_eq o1,
    SigNetParams_eq o2, rfl, rfl, rfl, rfl, rfl, ?_, ?_, ?_⟩
  · simp only [SigNetParams_members]
  · cases o1 with
    | mk challenge seeds =>
      cases challenge with
      | none => exact uint256S_empty
      | some c => rfl
  · cases o1 with
    | mk challenge seeds =>
      cases challenge with
      | none => exact uint256S_empty
      | some c => rfl

set_option maxRecDepth 1000000 in
/-- C22, as the code behaves: the target encoded by the genesis `nBits` of Test
and of Test-v4, `0x1e0ffff0`, is `0ffff0` followed by 27 zero bytes, above the
proof-of-work limit `00000000ffff...ff` of those two variants. For Main, for
Signet and for Regtest under any options the genesis target is within the
limit. -/
theorem C22_genesis_target_and_pow_limit (options : SigNetOptions) (opts : RegTestOptions) :
    CChainParams.TestNet = some CTestNetParams_members
    ∧ CTestNetParams_members.genesis.nBits = 0x1e0ffff0
    ∧ arith_uint256_SetCompact CTestNetParams_members.genesis.nBits = 0x0ffff0 * 256 ^ 27
    ∧ UintToArith256 CTestNetParams_members.consensus.powLimit = 2 ^ 224 - 1
    ∧ UintToArith256 CTestNetParams_members.consensus.powLimit
        < arith_uint256_SetCompact CTestNetParams_members.genesis.nBits
    ∧ CTestNet4Params_members.genesis.nBits = 0x1e0ffff0
    ∧ UintToArith256 CTestNet4Params_members.consensus.powLimit = 2 ^ 224 - 1
    ∧ UintToArith256 CTestNet4Params_members.consensus.powLimit
        < arith_uint256_SetCompact CTestNet4Params_members.genesis.nBits
    ∧ CChainParams.Main = some CMainParams_members
    ∧ arith_uint256_SetCompact CMainParams_members.genesis.nBits
        ≤ UintToArith256 CMainParams_members.consensus.powLimit
    ∧ CChainParams.SigNet options = some (SigNetParams_members options)
    ∧ arith_uint256_SetCompact (SigNetParams_members options).genesis.nBits
        ≤ UintToArith256 (SigNetParams_members options).consensus.powLimit
    ∧ CChainParams.RegTest opts = some (CRegTestParams_members opts)
    ∧ arith_uint256_SetCompact (CRegTestParams_members opts).genesis.nBits
        ≤ UintToArith256 (CRegTestParams_members opts).consensus.powLimit := by
  refine ⟨CTestNetParams_eq, rfl, ?_, ?_, ?_, rfl, ?_, ?_, CMainParams_eq, ?_,
    SigNetParams_eq options, ?_, CRegTestParams_eq opts, ?_⟩
  · decide!
  · decide!
  · decide!
  · decide!
  · decide!
  · decide!
  · show arith_uint256_SetCompact SigNetParams_genesis.nBits
      ≤ UintToArith256
        (uint256S "00000377ae000000000000000000000000000000000000000000000000000000")
    decide!
  · show arith_uint256_SetCompact CRegTestParams_genesis.nBits
      ≤ UintToArith256 (CRegTestParams_consensus opts).powLimit
    rw [(CRegTestParams_consensus_fixed opts).1]
    decide!

end BitScript
